import Mathlib

/-! # telegram_taskbot mini-app: identity resolver and task/profile synchronizer

A shallow embedding of `src/miniapp/src/hooks/useTelegram.js` and
`src/miniapp/src/hooks/useTasks.js`, of the column logic of
`components/TaskBoard.jsx`, the XP values of `components/Profile.jsx`, the
handlers of `components/CreateTaskDialog.jsx`, the day lists of
`components/ActivityHeatmap.jsx` and `components/Calendar.jsx` and of
`handleCreateTask` of `App.jsx`, together with the parts of the JavaScript
semantics they rely on (truthiness, property reads, `parseInt`, Number::toString
on integers, the calendar functions of `Date`).

React state setters are modelled as updates of an explicit state record, an
`await` as sequential composition, and the remote service as a function from
the requests issued so far to the reply of the next one.
-/

namespace TaskBot

/-! ## JavaScript values -/

/-- JavaScript numbers that the hooks can produce or test: the special values and
the doubles with an integer value (`int 0` is `+0`). -/
inductive JsNum
  | nan
  | posInf
  | negInf
  | negZero
  | int (z : Int)
  deriving DecidableEq, Repr

/-- JavaScript values. An object is its list of properties; a property read
returns the first entry of that name. -/
inductive JsVal
  | undefined
  | null
  | bool (b : Bool)
  | num (n : JsNum)
  | str (s : String)
  | arr (xs : List JsVal)
  | obj (fields : List (String × JsVal))
  deriving Repr

/-- An error value as thrown or used for a rejection; `message` is what
`err.message` reads. -/
structure JsError where
  name : String
  message : String
  deriving DecidableEq, Repr

/-- The value of `new Error(message)`. -/
def JsError.ofMessage (message : String) : JsError :=
  { name := "Error", message := message }

/-- ToBoolean on numbers: `NaN`, `+0` and `-0` are falsy. -/
def JsNum.truthy : JsNum → Bool
  | .nan => false
  | .negZero => false
  | .int z => decide (z ≠ 0)
  | .posInf => true
  | .negInf => true

/-- ToBoolean: what `if (v)`, `!v`, `!!v` and `v || w` test. -/
def JsVal.truthy : JsVal → Bool
  | .undefined => false
  | .null => false
  | .bool b => b
  | .num n => n.truthy
  | .str s => decide (s ≠ "")
  | .arr _ => true
  | .obj _ => true

/-- The values on which a property read throws. -/
def JsVal.isNullish : JsVal → Bool
  | .undefined => true
  | .null => true
  | _ => false

/-- Property read `v.k` on a value that is not nullish, for the property names
the hooks read (none of which a primitive or an array carries). -/
def JsVal.getField (v : JsVal) (k : String) : JsVal :=
  match v with
  | .obj fields => (fields.lookup k).getD .undefined
  | _ => .undefined

/-- Optional chaining `v?.k`. -/
def JsVal.optGet (v : JsVal) (k : String) : JsVal :=
  if v.isNullish then .undefined else v.getField k

/-- The TypeError of a property read on `null` or `undefined`. -/
def propertyReadError (v : JsVal) (k : String) : JsError :=
  { name := "TypeError"
    message := "Cannot read properties of " ++
      (match v with | .null => "null" | _ => "undefined") ++
      " (reading '" ++ k ++ "')" }

/-- Property read `v.k`: throws on `null` and `undefined`. -/
def JsVal.get (v : JsVal) (k : String) : Except JsError JsVal :=
  if v.isNullish then .error (propertyReadError v k) else .ok (v.getField k)

/-- The operator `v || w`. -/
def JsVal.orElse (v w : JsVal) : JsVal :=
  if v.truthy then v else w

/-! ## `parseInt` -/

/-- WhiteSpace and LineTerminator code points, which `parseInt` skips at the start. -/
def isStrWhiteSpaceChar (c : Char) : Bool :=
  let n := c.toNat
  n = 0x09 || n = 0x0A || n = 0x0B || n = 0x0C || n = 0x0D || n = 0x20 || n = 0xA0 ||
  n = 0x1680 || (0x2000 ≤ n && n ≤ 0x200A) || n = 0x2028 || n = 0x2029 || n = 0x202F ||
  n = 0x205F || n = 0x3000 || n = 0xFEFF

/-- Value of a digit character in radices up to 36. -/
def digitValue (c : Char) : Option Nat :=
  let n := c.toNat
  if 48 ≤ n ∧ n ≤ 57 then some (n - 48)
  else if 97 ≤ n ∧ n ≤ 122 then some (n - 87)
  else if 65 ≤ n ∧ n ≤ 90 then some (n - 55)
  else none

/-- Value of `c` as a radix-`r` digit, if it is one. -/
def radixDigit (r : Nat) (c : Char) : Option Nat :=
  match digitValue c with
  | some d => if d < r then some d else none
  | none => none

/-- The values of the longest prefix of radix-`r` digits. -/
def leadingDigits (r : Nat) : List Char → List Nat
  | [] => []
  | c :: cs =>
    match radixDigit r c with
    | some d => d :: leadingDigits r cs
    | none => []

/-- The integer written by a digit sequence in radix `r`. -/
def mathInt (r : Nat) (ds : List Nat) : Nat :=
  ds.foldl (fun acc d => acc * r + d) 0

/-- Number of binary digits of `m`, with `fuel` halvings allowed. -/
def bitLengthAux : Nat → Nat → Nat
  | 0, _ => 0
  | fuel + 1, m => if m = 0 then 0 else bitLengthAux fuel (m / 2) + 1

/-- Number of binary digits of `m` (0 for 0): `m < 2 ^ bitLength m`. -/
def bitLength (m : Nat) : Nat :=
  bitLengthAux m m

/-- Round a natural number to the nearest integer a double can hold
(53 significant bits, ties to even). -/
def roundToDouble (m : Nat) : Nat :=
  if m < 2 ^ 53 then m
  else
    let e := bitLength m - 53
    let q := m / 2 ^ e
    let r := m % 2 ^ e
    let half := 2 ^ (e - 1)
    let q' := if half < r ∨ (r = half ∧ q % 2 = 1) then q + 1 else q
    q' * 2 ^ e

/-- The Number value of `±m`: rounded to a double, infinite past the largest one. -/
def numberOf (negative : Bool) (m : Nat) : JsNum :=
  if m = 0 then (if negative then .negZero else .int 0)
  else
    let v := roundToDouble m
    -- more than 1024 binary digits: `2 ^ 1024 ≤ v`, past the largest finite double
    if 1024 < bitLength v then (if negative then .negInf else .posInf)
    else .int (if negative then -(v : Int) else (v : Int))

/-- The part of `parseInt` after the sign: radix 10, or 16 after `0x`/`0X`. -/
def parseMagnitude (negative : Bool) (s : List Char) : JsNum :=
  let rs : Nat × List Char :=
    match s with
    | '0' :: 'x' :: t => (16, t)
    | '0' :: 'X' :: t => (16, t)
    | _ => (10, s)
  let ds := leadingDigits rs.1 rs.2
  if ds = [] then .nan else numberOf negative (mathInt rs.1 ds)

/-- `parseInt(string)` with no radix argument, on the characters of the string. -/
def parseIntChars (input : List Char) : JsNum :=
  match input.dropWhile isStrWhiteSpaceChar with
  | '-' :: t => parseMagnitude true t
  | '+' :: t => parseMagnitude false t
  | s => parseMagnitude false s

/-- `parseInt(string)` with no radix argument. -/
def parseInt (s : String) : JsNum :=
  parseIntChars s.data

/-! ## The identity resolver (`useTelegram.js`) -/

/-- The host object `window.Telegram.WebApp`, as far as the resolver reads it. -/
structure WebApp where
  initData : JsVal
  initDataUnsafe : JsVal

/-- What the resolver reads from `window`. -/
structure Window where
  /-- The value of `window.Telegram?.WebApp` -/
  webApp : Option WebApp
  /-- The name/value pairs of `new URLSearchParams(window.location.search)` -/
  search : List (String × String)
  /-- `window.location.hostname` -/
  hostname : String

/-- `URLSearchParams.get`: the value of the first pair of that name, else `null`. -/
def urlParamsGet (params : List (String × String)) (name : String) : Option String :=
  params.lookup name

/-- A string-or-null result as a value. -/
def JsVal.ofOptString : Option String → JsVal
  | some s => .str s
  | none => .null

/-- Calls made on the host object. -/
inductive HostCall
  | ready
  | expand
  deriving DecidableEq, Repr

/-- The `useState` cells of `useTelegram`. -/
structure TelegramState where
  userId : JsVal
  user : JsVal
  initData : JsVal
  isLoading : Bool
  error : JsVal

/-- The initial values of the `useState` cells of `useTelegram`. -/
def TelegramState.initial : TelegramState :=
  { userId := .null, user := .null, initData := .null, isLoading := true, error := .null }

/-- The expression `tg?.initDataUnsafe?.user`. -/
def hostUser (tg : Option WebApp) : JsVal :=
  match tg with
  | some app => app.initDataUnsafe.optGet "user"
  | none => .undefined

/-- The function `authenticate` of `useTelegram`: the state after its setters
have run, and the calls it made on the host object. -/
def authenticate (win : Window) (s0 : TelegramState) : TelegramState × List HostCall :=
  let s := { s0 with isLoading := true }
  let calls : List HostCall :=
    match win.webApp with
    | some _ => [.ready, .expand]
    | none => []
  -- METHOD 1
  if (hostUser win.webApp).truthy then
    let telegramUser := hostUser win.webApp
    let tgInitData :=
      match win.webApp with
      | some app => app.initData
      | none => .undefined
    ({ s with userId := telegramUser.getField "id", user := telegramUser,
              initData := tgInitData, isLoading := false }, calls)
  else
    -- METHOD 2
    let userIdParam := urlParamsGet win.search "userId"
    if (JsVal.ofOptString userIdParam).truthy then
      let n := parseInt (userIdParam.getD "")
      ({ s with userId := .num n,
                user := .obj [("id", .num n), ("first_name", .str "User")],
                initData := .str "", isLoading := false }, calls)
    -- METHOD 3
    else if win.hostname = "localhost" ∨ win.hostname = "127.0.0.1" then
      ({ s with userId := .num (.int 12345),
                user := .obj [("id", .num (.int 12345)), ("first_name", .str "Dev User")],
                initData := .str "", isLoading := false }, calls)
    else
      ({ s with error := .str "Please open via Telegram bot", isLoading := false }, calls)

/-- What `useTelegram` returns once its effect has run. -/
structure TelegramView where
  tg : Option WebApp
  user : JsVal
  userId : JsVal
  initData : JsVal
  isLoading : Bool
  error : JsVal
  isReady : Bool

/-- The hook `useTelegram` after its mount effect: `authenticate` applied to the
initial state, and the derived `isReady: !!userId && !isLoading`. -/
def useTelegram (win : Window) : TelegramView :=
  let s := (authenticate win TelegramState.initial).1
  { tg := win.webApp, user := s.user, userId := s.userId, initData := s.initData,
    isLoading := s.isLoading, error := s.error,
    isReady := s.userId.truthy && !s.isLoading }

/-- The screens `App` can return. -/
inductive AppView
  | onboarding
  | loading
  | error
  | main
  deriving DecidableEq, Repr

/-- The chain of early returns of `App` (`App.jsx`, "Show onboarding", "Show
loading", "Show error", then the main interface). -/
def appView (showOnboarding : Bool) (t : TelegramView) : AppView :=
  if showOnboarding then .onboarding
  else if t.isLoading then .loading
  else if t.error.truthy && !t.userId.truthy then .error
  else .main

/-- The decimal literal of an integer: its digits, after a `-` when negative. -/
def decimalLiteral : Int → String
  | .ofNat m => Nat.repr m
  | .negSucc m => "-" ++ Nat.repr (m + 1)

/-! ## The task/profile synchronizer (`useTasks.js`) -/

/-- HTTP methods used by the synchronizer. -/
inductive Method
  | get
  | post
  | put
  | delete
  deriving DecidableEq, Repr

/-- A request issued through the axios instance built by `getApi`. -/
structure Request where
  method : Method
  /-- Path below `API_BASE` -/
  url : String
  /-- Request body, `undefined` when there is none -/
  body : JsVal
  /-- Header `X-Telegram-Init-Data` -/
  initDataHeader : JsVal
  /-- Query parameter `userId` -/
  userIdParam : JsVal

/-- How a request settles: resolved with `response.data`, or rejected. -/
inductive Reply
  | ok (data : JsVal)
  | fail (err : JsError)

/-- The remote service: its reply to a request, given the requests issued
before it (oldest first). -/
abbrev Remote := List Request → Request → Reply

/-- What happens on the network, in order. -/
inductive NetEvent
  | started (r : Request)
  | settled (r : Request) (reply : Reply)

/-- The `useState` cells of `useTasks`. -/
structure TasksState where
  tasks : JsVal
  profile : JsVal
  loading : Bool
  error : JsVal
  initialized : Bool

/-- The initial values of the `useState` cells of `useTasks`. -/
def TasksState.initial : TasksState :=
  { tasks := .arr [], profile := .null, loading := false, error := .null,
    initialized := false }

/-- The hook state together with the network events so far. -/
structure World where
  state : TasksState
  net : List NetEvent

/-- The arguments of `useTasks(userId, authToken)`. -/
structure TasksProps where
  userId : JsVal
  authToken : JsVal

/-- The requests started so far, oldest first. -/
def issued : List NetEvent → List Request
  | [] => []
  | .started r :: es => r :: issued es
  | .settled _ _ :: es => issued es

/-- The request `getApi()` sends for a method, path and body: the header is
`authToken || ''` and `userId` goes into the query. -/
def apiRequest (p : TasksProps) (method : Method) (url : String) (body : JsVal) : Request :=
  { method := method, url := url, body := body,
    initDataHeader := p.authToken.orElse (.str ""), userIdParam := p.userId }

/-- An awaited request: it starts, the service replies, it settles, and only
then does the caller go on. -/
def send (remote : Remote) (req : Request) (w : World) : Reply × World :=
  let reply := remote (issued w.net) req
  (reply, { w with net := w.net ++ [.started req, .settled req reply] })

/-- The setter `setTasks`. -/
def World.setTasks (w : World) (v : JsVal) : World :=
  { w with state := { w.state with tasks := v } }

/-- The setter `setProfile`. -/
def World.setProfile (w : World) (v : JsVal) : World :=
  { w with state := { w.state with profile := v } }

/-- The setter `setLoading`. -/
def World.setLoading (w : World) (b : Bool) : World :=
  { w with state := { w.state with loading := b } }

/-- The setter `setError`. -/
def World.setError (w : World) (v : JsVal) : World :=
  { w with state := { w.state with error := v } }

/-- How an async function ends: resolved with a value or rejected with an error. -/
abbrev Outcome := Except JsError JsVal

/-- The function `fetchTasks`: the `try` block after the `await`, then `catch`,
then `finally`. -/
def fetchTasks (p : TasksProps) (remote : Remote) (w : World) : Outcome × World :=
  if !p.userId.truthy then (.ok .undefined, w)
  else
    let r := send remote (apiRequest p .get "/tasks" .undefined) (w.setLoading true)
    let tried : Except JsError World :=
      match r.1 with
      | .fail err => .error err
      | .ok data =>
        -- `response.data.tasks?.length` reads `tasks` off `response.data`
        match data.get "tasks" with
        | .error e => .error e
        | .ok tasks => .ok ((r.2.setTasks (tasks.orElse (.arr []))).setError .null)
    let caught : World :=
      match tried with
      | .ok w1 => w1
      | .error err => r.2.setError (.str err.message)
    (.ok .undefined, caught.setLoading false)

/-- The function `fetchProfile`. -/
def fetchProfile (p : TasksProps) (remote : Remote) (w : World) : Outcome × World :=
  if !p.userId.truthy then (.ok .undefined, w)
  else
    let r := send remote (apiRequest p .get "/profile" .undefined) w
    match r.1 with
    | .ok data => (.ok .undefined, r.2.setProfile data)
    | .fail _ => (.ok .undefined, r.2)

/-- The function `createTask`. -/
def createTask (p : TasksProps) (remote : Remote) (taskData : JsVal) (w : World) :
    Outcome × World :=
  if !p.userId.truthy then (.error (JsError.ofMessage "Not authenticated"), w)
  else
    let r := send remote (apiRequest p .post "/tasks" taskData) w
    match r.1 with
    | .fail err => (.error err, r.2)
    | .ok data =>
      let f := fetchTasks p remote r.2
      match f.1 with
      | .error e => (.error e, f.2)
      | .ok _ =>
        match data.get "task" with
        | .error e => (.error e, f.2)
        | .ok task => (.ok task, f.2)

/-- The function `completeTask`; `taskId` is the text that the template literal
interpolates. -/
def completeTask (p : TasksProps) (remote : Remote) (taskId : String) (w : World) :
    Outcome × World :=
  if !p.userId.truthy then (.error (JsError.ofMessage "Not authenticated"), w)
  else
    let r := send remote (apiRequest p .put ("/tasks/" ++ taskId ++ "/complete") .undefined) w
    match r.1 with
    | .fail err => (.error err, r.2)
    | .ok data =>
      -- the `console.log` after the `await` reads `response.data.gamification`
      match data.get "gamification" with
      | .error e => (.error e, r.2)
      | .ok gamification =>
        let f := fetchTasks p remote r.2
        match f.1 with
        | .error e => (.error e, f.2)
        | .ok _ =>
          let g := fetchProfile p remote f.2
          match g.1 with
          | .error e => (.error e, g.2)
          | .ok _ => (.ok gamification, g.2)

/-- The function `deleteTask`; `taskId` is the text that the template literal
interpolates. -/
def deleteTask (p : TasksProps) (remote : Remote) (taskId : String) (w : World) :
    Outcome × World :=
  if !p.userId.truthy then (.error (JsError.ofMessage "Not authenticated"), w)
  else
    let r := send remote (apiRequest p .delete ("/tasks/" ++ taskId) .undefined) w
    match r.1 with
    | .fail err => (.error err, r.2)
    | .ok data =>
      -- the `console.log` after the `await` reads `response.data.gamification`
      match data.get "gamification" with
      | .error e => (.error e, r.2)
      | .ok gamification =>
        let f := fetchTasks p remote r.2
        match f.1 with
        | .error e => (.error e, f.2)
        | .ok _ =>
          let g := fetchProfile p remote f.2
          match g.1 with
          | .error e => (.error e, g.2)
          | .ok _ => (.ok gamification, g.2)


/-- The request of `api.get('/tasks')`. -/
abbrev tasksRequest (p : TasksProps) : Request :=
  apiRequest p .get "/tasks" .undefined

/-- The request of `api.get('/profile')`. -/
abbrev profileRequest (p : TasksProps) : Request :=
  apiRequest p .get "/profile" .undefined

/-- The request of `api.post('/tasks', taskData)`. -/
abbrev createRequest (p : TasksProps) (taskData : JsVal) : Request :=
  apiRequest p .post "/tasks" taskData

/-- The request of `api.put('/tasks/' + taskId + '/complete')`. -/
abbrev completeRequest (p : TasksProps) (taskId : String) : Request :=
  apiRequest p .put ("/tasks/" ++ taskId ++ "/complete") .undefined

/-- The request of `api.delete('/tasks/' + taskId)`. -/
abbrev deleteRequest (p : TasksProps) (taskId : String) : Request :=
  apiRequest p .delete ("/tasks/" ++ taskId) .undefined

/-- The initial load effect of `useTasks`, run after a render with arguments `p`.
The calls `fetchTasks()` and `fetchProfile()` in it are not awaited: each runs up
to its `await`, so `loading` is set and both requests are started, and then
`setInitialized(true)` runs. -/
def loadEffect (p : TasksProps) (w : World) : World :=
  if p.userId.truthy && !w.state.initialized then
    { state := { w.state with loading := true, initialized := true },
      net := w.net ++ [.started (apiRequest p .get "/tasks" .undefined),
                       .started (apiRequest p .get "/profile" .undefined)] }
  else w

/-- The load effect over a sequence of renders, each given by the arguments the
hook is called with; `initialized` is written by nothing else. -/
def afterRenders : List TasksProps → World → World
  | [], w => w
  | p :: ps, w => afterRenders ps (loadEffect p w)

/-! ## The task board (`TaskBoard.jsx`) -/

/-- The field `remindAt` of a task: a number or a string. -/
inductive RemindAt
  | num (n : JsNum)
  | str (s : String)

/-- A task object, as far as `TaskBoard` reads it. -/
structure Task where
  id : JsVal
  text : JsVal
  status : JsVal
  remindAt : RemindAt

/-- The ids of the four columns. -/
inductive Bucket
  | today
  | tomorrow
  | week
  | later
  deriving DecidableEq, Repr

/-- The value `timestamp` of `categorizeTask`:
`typeof task.remindAt === 'string' ? parseInt(task.remindAt) : task.remindAt`. -/
def taskTimestamp (task : Task) : JsNum :=
  match task.remindAt with
  | .str s => parseInt s
  | .num n => n

/-- The test `timestamp - now < bound` with `now = nowMs / 1000`, where `nowMs` is
the value of `Date.now()` and `bound` is in seconds. It is decided on the exact
difference, in milliseconds; a comparison with `NaN` is false. -/
def diffLessThan (timestamp : JsNum) (nowMs : Int) (bound : Int) : Bool :=
  match timestamp with
  | .nan => false
  | .posInf => false
  | .negInf => true
  | .negZero => decide (0 * 1000 - nowMs < bound * 1000)
  | .int z => decide (z * 1000 - nowMs < bound * 1000)

/-- The function `categorizeTask`, with the value of `Date.now()` as an argument. -/
def categorizeTask (nowMs : Int) (task : Task) : Bucket :=
  let timestamp := taskTimestamp task
  if diffLessThan timestamp nowMs 0 then .today
  else if diffLessThan timestamp nowMs 86400 then .today
  else if diffLessThan timestamp nowMs 172800 then .tomorrow
  else if diffLessThan timestamp nowMs 604800 then .week
  else .later

/-- The test `task.status !== 'done'`, negated. -/
def Task.isDone (task : Task) : Bool :=
  match task.status with
  | .str s => decide (s = "done")
  | _ => false

/-- A column of the board with the tasks pushed to it. -/
structure Column where
  id : Bucket
  title : String
  tasks : List Task

/-- The array `columns` after `columns.forEach(col => col.tasks = [])`. -/
def emptyColumns : List Column :=
  [ { id := .today, title := "Today", tasks := [] },
    { id := .tomorrow, title := "Tomorrow", tasks := [] },
    { id := .week, title := "This Week", tasks := [] },
    { id := .later, title := "Later", tasks := [] } ]

/-- The two steps `columns.find(c => c.id === category)` and
`if (column) column.tasks.push(task)`. -/
def pushTask (category : Bucket) (task : Task) : List Column → List Column
  | [] => []
  | c :: cs =>
    if c.id = category then { c with tasks := c.tasks ++ [task] } :: cs
    else c :: pushTask category task cs

/-- The loop `pendingTasks.forEach(...)`. Every call of `categorizeTask` reads
`Date.now()` anew: `clock k` is the value read by call number `k`. -/
def distribute (clock : Nat → Int) : Nat → List Task → List Column → List Column
  | _, [], cols => cols
  | k, task :: rest, cols =>
    distribute clock (k + 1) rest (pushTask (categorizeTask (clock k) task) task cols)

/-- The list `pendingTasks`: `tasks.filter(task => task.status !== 'done')`. -/
def pendingTasks (tasks : List Task) : List Task :=
  tasks.filter (fun task => !task.isDone)

/-- The columns that `TaskBoard` renders for `tasks`. -/
def taskBoard (clock : Nat → Int) (tasks : List Task) : List Column :=
  distribute clock 0 (pendingTasks tasks) emptyColumns

/-- The tasks of a list that `categorizeTask` assigns to `bucket`, in the order of
the list, when the call for the first task is call number `k`. -/
def assignedTo (clock : Nat → Int) (bucket : Bucket) : Nat → List Task → List Task
  | _, [] => []
  | k, task :: rest =>
    if categorizeTask (clock k) task = bucket then task :: assignedTo clock bucket (k + 1) rest
    else assignedTo clock bucket (k + 1) rest

/-! ## The profile card (`Profile.jsx`) -/

/-- The digits `s` and the exponent `n` of Number::toString for the double `m`,
looked for among the `k`-digit candidates: `s * 10 ^ (n - k)` must round to `m`,
and of two candidates the closer one is taken. -/
def digitsOfLength (m d k : Nat) : Option (Nat × Nat) :=
  let candidates : List (Nat × Nat) :=
    [(m / 10 ^ (d - k), d), (m / 10 ^ (d - k) + 1, d),
     (m / 10 ^ (d + 1 - k), d + 1), (m / 10 ^ (d + 1 - k) + 1, d + 1)]
  let good := candidates.filter (fun c =>
    decide (10 ^ (k - 1) ≤ c.1) && decide (c.1 < 10 ^ k) && decide (k ≤ c.2) &&
    decide (roundToDouble (c.1 * 10 ^ (c.2 - k)) = m))
  good.foldl (fun best c =>
    match best with
    | none => some c
    | some b =>
      if Int.natAbs ((c.1 * 10 ^ (c.2 - k) : Int) - m) < Int.natAbs ((b.1 * 10 ^ (b.2 - k) : Int) - m)
      then some c else some b) none

/-- The shortest digits of `m`: the search of `digitsOfLength` for `k`, `k + 1`,
up to `k + fuel - 1`. -/
def shortestDigits (m d : Nat) : Nat → Nat → Option (Nat × Nat × Nat)
  | 0, _ => none
  | fuel + 1, k =>
    match digitsOfLength m d k with
    | some (s, n) => some (s, n, k)
    | none => shortestDigits m d fuel (k + 1)

/-- Number::toString for a positive integer that a double holds: the shortest
digits that round to it, followed by zeros below `10 ^ 21` and in exponent
notation from there on. -/
def natToJsString (m : Nat) : String :=
  match shortestDigits m (Nat.toDigits 10 m).length 17 1 with
  | none => Nat.repr m
  | some (s, n, k) =>
    if n ≤ 21 then Nat.repr s ++ String.mk (List.replicate (n - k) '0')
    else if k = 1 then Nat.repr s ++ "e+" ++ Nat.repr (n - 1)
    else
      String.mk ((Nat.toDigits 10 s).take 1) ++ "." ++ String.mk ((Nat.toDigits 10 s).drop 1) ++
        "e+" ++ Nat.repr (n - 1)

/-- Number::toString on the numbers of the model. -/
def JsNum.toJsString : JsNum → String
  | .nan => "NaN"
  | .posInf => "Infinity"
  | .negInf => "-Infinity"
  | .negZero => "0"
  | .int z =>
    if z = 0 then "0"
    else if z < 0 then "-" ++ natToJsString z.natAbs
    else natToJsString z.natAbs

mutual
/-- The method `Array.prototype.join` with the separator `,`. -/
def joinElements : List JsVal → String
  | [] => ""
  | [x] => elementString x
  | x :: y :: rest => elementString x ++ "," ++ joinElements (y :: rest)
/-- The string of an array element in `join`: empty for `null` and `undefined`. -/
def elementString : JsVal → String
  | .undefined => ""
  | .null => ""
  | .bool true => "true"
  | .bool false => "false"
  | .num n => n.toJsString
  | .str s => s
  | .arr xs => joinElements xs
  | .obj _ => "[object Object]"
end

/-- ToString, as `parseInt` applies it to its argument. -/
def JsVal.toJsString : JsVal → String
  | .undefined => "undefined"
  | .null => "null"
  | .bool true => "true"
  | .bool false => "false"
  | .num n => n.toJsString
  | .str s => s
  | .arr xs => joinElements xs
  | .obj _ => "[object Object]"

/-- The call `parseInt(v)` on any value. -/
def parseIntOf (v : JsVal) : JsNum :=
  parseInt v.toJsString

/-- The expression `a % m` for a number `a` and a positive integer `m`: the
remainder has the sign of `a`. -/
def jsRemainder (a : JsNum) (m : Int) : JsNum :=
  match a with
  | .nan => .nan
  | .posInf => .nan
  | .negInf => .nan
  | .negZero => .negZero
  | .int z => if z < 0 ∧ Int.tmod z m = 0 then .negZero else .int (Int.tmod z m)

/-- The expression `n || fallback` on numbers. -/
def JsNum.orElse (n fallback : JsNum) : JsNum :=
  if n.truthy then n else fallback

/-- The values that `Profile` computes before rendering. -/
structure ProfileCard where
  level : JsNum
  totalXP : JsNum
  xpInLevel : JsVal
  xpForNext : JsVal
  streak : JsNum
  tasksCompleted : JsNum

/-- The component `Profile` with `showAdmin` false: nothing for a falsy profile,
else the values it displays. -/
def profileCard (profile : JsVal) : Option ProfileCard :=
  if !profile.truthy then none
  else
    let level := (parseIntOf (profile.getField "level")).orElse (.int 1)
    let totalXP := (parseIntOf (profile.getField "totalXP")).orElse (.int 0)
    let xpInLevel := (profile.getField "xpProgress").orElse (.num (jsRemainder totalXP 100))
    let xpForNext := (profile.getField "xpForNextLevel").orElse (.num (.int 100))
    let streak := (parseIntOf (profile.getField "streak")).orElse (.int 0)
    let tasksCompleted := (parseIntOf (profile.getField "tasksCompleted")).orElse (.int 0)
    some { level := level, totalXP := totalXP, xpInLevel := xpInLevel, xpForNext := xpForNext,
           streak := streak, tasksCompleted := tasksCompleted }

/-! ## The tag list of the create dialog (`CreateTaskDialog.jsx`) -/

/-- The method `String.prototype.trim`. -/
def jsTrim (s : String) : String :=
  String.mk ((s.data.dropWhile isStrWhiteSpaceChar).reverse.dropWhile isStrWhiteSpaceChar).reverse

/-- The `useState` cells `tags` and `tagInput` of `CreateTaskDialog`. -/
structure TagForm where
  tags : List String
  tagInput : String

/-- The initial values of `tags` and `tagInput`. -/
def TagForm.initial : TagForm :=
  { tags := [], tagInput := "" }

/-- The handler `handleAddTag` for a key event with `e.key = key`;
`replace('#', '')` removes the first `#`. -/
def handleAddTag (key : String) (f : TagForm) : TagForm :=
  if key = "Enter" ∧ jsTrim f.tagInput ≠ "" then
    let tag := String.mk ((jsTrim f.tagInput).data.erase '#')
    { tags := if tag ∈ f.tags then f.tags else f.tags ++ [tag], tagInput := "" }
  else f

/-- The handler `handleDeleteTag`. -/
def handleDeleteTag (tagToDelete : String) (f : TagForm) : TagForm :=
  { f with tags := f.tags.filter (fun tag => tag ≠ tagToDelete) }

/-- What the user can do to the tag field and the tag chips. -/
inductive TagEvent
  | input (value : String)
  | keyDown (key : String)
  | deleteChip (tag : String)

/-- The handler of an event: `onChange` sets `tagInput`, `onKeyDown` is
`handleAddTag`, and the delete icon of a chip calls `handleDeleteTag`. -/
def TagEvent.handle (f : TagForm) : TagEvent → TagForm
  | .input value => { f with tagInput := value }
  | .keyDown key => handleAddTag key f
  | .deleteChip tag => handleDeleteTag tag f

/-- The form after a sequence of events. -/
def runTagEvents (events : List TagEvent) (f : TagForm) : TagForm :=
  events.foldl TagEvent.handle f

/-- What `getApi` puts on every request: `params.userId` is the hook's `userId`,
and the header `X-Telegram-Init-Data` is `authToken || ''`, that is `authToken`
itself when it is truthy and the empty string otherwise. -/
def carriesIdentity (p : TasksProps) (r : Request) : Prop :=
  r.userIdParam = p.userId ∧
  (p.authToken.truthy = true → r.initDataHeader = p.authToken) ∧
  (p.authToken.truthy = false → r.initDataHeader = .str "")

/-- The function `fetchTasks` up to its `await`: the hook as callers see it while
the request is in flight. -/
def fetchTasksPending (p : TasksProps) (w : World) : World :=
  if !p.userId.truthy then w
  else
    { (w.setLoading true) with
      net := w.net ++ [.started (apiRequest p .get "/tasks" .undefined)] }

/-- The function `fetchProfile` up to its `await`: the hook as callers see it
while the request is in flight. -/
def fetchProfilePending (p : TasksProps) (w : World) : World :=
  if !p.userId.truthy then w
  else { w with net := w.net ++ [.started (apiRequest p .get "/profile" .undefined)] }

/-- The position of a bucket in the order today, tomorrow, week, later. -/
def Bucket.rank : Bucket → Nat
  | .today => 0
  | .tomorrow => 1
  | .week => 2
  | .later => 3

/-! ## Dates (the parts of `Date` that the components use) -/

/-- Milliseconds per day. -/
def msPerDay : Int := 86400000

/-- The day number `Day(t)` of a time value: days since 1 January 1970. -/
def dayOf (t : Int) : Int := t / msPerDay

/-- The milliseconds `TimeWithinDay(t)` since the start of the day. -/
def timeWithinDay (t : Int) : Int := t % msPerDay

/-- The test `InLeapYear`. -/
def isLeapYear (y : Int) : Bool :=
  (decide (y % 4 = 0) && !decide (y % 100 = 0)) || decide (y % 400 = 0)

/-- The day number `DayFromYear(y)` of 1 January of year `y`. -/
def dayFromYear (y : Int) : Int :=
  365 * (y - 1970) + (y - 1969) / 4 - (y - 1901) / 100 + (y - 1601) / 400

/-- Going up from year `y` to the last year that starts on or before day `n`. -/
def yearSearch : Nat → Int → Int → Int
  | 0, _, y => y
  | fuel + 1, n, y => if dayFromYear (y + 1) ≤ n then yearSearch fuel n (y + 1) else y

/-- The year `YearFromTime` of day number `n`: the search starts from a year that
is not after it. -/
def yearFromDay (n : Int) : Int :=
  yearSearch (n.natAbs / 100000 + 3) n (1970 + min (n / 365) (n / 366))

/-- The day within the year on which month `m` (0 to 11) starts. -/
def monthStart (leap : Bool) (m : Nat) : Int :=
  let l : Int := if leap then 1 else 0
  match m with
  | 0 => 0
  | 1 => 31
  | 2 => 59 + l
  | 3 => 90 + l
  | 4 => 120 + l
  | 5 => 151 + l
  | 6 => 181 + l
  | 7 => 212 + l
  | 8 => 243 + l
  | 9 => 273 + l
  | 10 => 304 + l
  | _ => 334 + l

/-- The month `MonthFromTime` (0 to 11) of day `d` within a year. -/
def monthOfDayInYear (leap : Bool) (d : Int) : Nat :=
  ((List.range 12).filter (fun m => decide (monthStart leap m ≤ d))).length - 1

/-- The month `MonthFromTime` of day number `n`. -/
def monthFromDay (n : Int) : Nat :=
  monthOfDayInYear (isLeapYear (yearFromDay n)) (n - dayFromYear (yearFromDay n))

/-- The day of the month `DateFromTime` of day number `n`. -/
def dateFromDay (n : Int) : Int :=
  n - dayFromYear (yearFromDay n) - monthStart (isLeapYear (yearFromDay n)) (monthFromDay n) + 1

/-- The weekday `WeekDay` of day number `n`, 0 for Sunday. -/
def weekDay (n : Int) : Int := (n + 4) % 7

/-- The day number `MakeDay(year, month, date)`: the month may lie outside 0 to 11
and the date outside the month. -/
def makeDay (year month date : Int) : Int :=
  dayFromYear (year + month / 12) +
    monthStart (isLeapYear (year + month / 12)) (month % 12).toNat + date - 1

/-- The time value `MakeDate(day, time)`. -/
def makeDate (day time : Int) : Int := day * msPerDay + time

/-- The time zone of the host: the offset of local time from UTC, in
milliseconds, at a UTC time value and for a local time value. -/
structure TimeZone where
  offsetAt : Int → Int
  offsetOfLocal : Int → Int

/-- A time zone with one offset all year. -/
def TimeZone.fixed (offset : Int) : TimeZone :=
  { offsetAt := fun _ => offset, offsetOfLocal := fun _ => offset }

/-- The local time value `LocalTime(t)`. -/
def localTime (tz : TimeZone) (t : Int) : Int := t + tz.offsetAt t

/-- The time value `UTC(t)` of a local time value. -/
def utcTime (tz : TimeZone) (t : Int) : Int := t - tz.offsetOfLocal t

/-- The method `getFullYear`. -/
def getFullYear (tz : TimeZone) (t : Int) : Int := yearFromDay (dayOf (localTime tz t))

/-- The method `getMonth`. -/
def getMonth (tz : TimeZone) (t : Int) : Nat := monthFromDay (dayOf (localTime tz t))

/-- The method `getDate`. -/
def getDate (tz : TimeZone) (t : Int) : Int := dateFromDay (dayOf (localTime tz t))

/-- The method `getDay`. -/
def getDay (tz : TimeZone) (t : Int) : Int := weekDay (dayOf (localTime tz t))

/-- The time value after `setDate(date)`: the local year, month and time of day
stay, and the result goes back to UTC. -/
def setDate (tz : TimeZone) (t : Int) (date : Int) : Int :=
  utcTime tz (makeDate
    (makeDay (getFullYear tz t) (getMonth tz t) date) (timeWithinDay (localTime tz t)))

/-- The time value of `new Date(year, month, date)`: local midnight; a year from
0 to 99 stands for 1900 to 1999. -/
def dateFromFields (tz : TimeZone) (year month date : Int) : Int :=
  let yr := if 0 ≤ year ∧ year ≤ 99 then 1900 + year else year
  utcTime tz (makeDate (makeDay yr month date) 0)

/-- Decimal digits of `n`, padded with zeros on the left to `width`. -/
def padDigits (width n : Nat) : String :=
  String.mk (List.replicate (width - (Nat.toDigits 10 n).length) '0' ++ Nat.toDigits 10 n)

/-- The date part of `toISOString()` for a time value: the UTC date as
`YYYY-MM-DD`, with a sign and six digits for years outside 0 to 9999. -/
def isoDate (t : Int) : String :=
  let y := yearFromDay (dayOf t)
  let year :=
    if 0 ≤ y ∧ y ≤ 9999 then padDigits 4 y.toNat
    else if y < 0 then "-" ++ padDigits 6 y.natAbs
    else "+" ++ padDigits 6 y.natAbs
  year ++ "-" ++ padDigits 2 (monthFromDay (dayOf t) + 1) ++ "-" ++
    padDigits 2 (dateFromDay (dayOf t)).toNat

/-! ## The activity heatmap (`ActivityHeatmap.jsx`) -/

/-- An entry of the array `days`. -/
structure HeatDay where
  date : String
  count : JsVal
  dayOfWeek : Int

/-- The entry pushed by the loop body for `i`: `d` is `today` moved back `i` days
by `setDate`, and `iso` is the date part of `d.toISOString()`. -/
def heatDay (tz : TimeZone) (today : Int) (activityLog : JsVal) (i : Nat) : HeatDay :=
  let d := setDate tz today (getDate tz today - i)
  { date := isoDate d
    count := (activityLog.optGet (isoDate d)).orElse (.num (.int 0))
    dayOfWeek := getDay tz d }

/-- The array `days` of `ActivityHeatmap`, for the time value `today` of
`new Date()`: the loop runs `i` from 59 down to 0. -/
def activityHeatmap (tz : TimeZone) (today : Int) (activityLog : JsVal) : List HeatDay :=
  ((List.range 60).reverse).map (heatDay tz today activityLog)

/-! ## The calendar (`Calendar.jsx`) -/

/-- The result of `getDaysInMonth`. -/
structure MonthShape where
  firstDay : Int
  daysInMonth : Int

/-- The function `getDaysInMonth` on the time value of `date`. -/
def getDaysInMonth (tz : TimeZone) (date : Int) : MonthShape :=
  let year := getFullYear tz date
  let month : Int := getMonth tz date
  { firstDay := getDay tz (dateFromFields tz year month 1)
    daysInMonth := getDate tz (dateFromFields tz year (month + 1) 0) }

/-- The array `days` of `Calendar`: `null` for the cells before the month starts,
then the day numbers. -/
def calendarDays (tz : TimeZone) (currentDate : Int) : List (Option Nat) :=
  List.replicate (getDaysInMonth tz currentDate).firstDay.toNat none ++
    (List.range (getDaysInMonth tz currentDate).daysInMonth.toNat).map (fun i => some (i + 1))

/-- The time value of `new Date(timestamp * 1000)`, if the date is valid. -/
def timeValueOfSeconds (timestamp : JsNum) : Option Int :=
  match timestamp with
  | .int z => if -8640000000000000 ≤ z * 1000 ∧ z * 1000 ≤ 8640000000000000 then some (z * 1000)
              else none
  | .negZero => some 0
  | _ => none

/-- The function `getTasksForDay`: the tasks whose date, month and year in local
time are `day` and the month and year of `currentDate`. -/
def getTasksForDay (tz : TimeZone) (currentDate : Int) (tasks : List Task) (day : Nat) :
    List Task :=
  tasks.filter (fun task =>
    match timeValueOfSeconds (taskTimestamp task) with
    | none => false
    | some taskDate =>
      decide (getDate tz taskDate = day) &&
      decide (getMonth tz taskDate = getMonth tz currentDate) &&
      decide (getFullYear tz taskDate = getFullYear tz currentDate))

/-- The number in the summary line, `tasks.length`, shown before the words
'tasks this month'. -/
def calendarSummaryCount (tasks : List Task) : Nat :=
  tasks.length

/-- The number of tasks on the days of the grid: the sum of the sizes of
`getTasksForDay(day)` over the cells that hold a day. -/
def tasksOnGrid (tz : TimeZone) (currentDate : Int) (tasks : List Task) : Nat :=
  (((calendarDays tz currentDate).filterMap id).map
    (fun day => (getTasksForDay tz currentDate tasks day).length)).sum

/-! ## The create dialog (`CreateTaskDialog.jsx`) and `handleCreateTask` (`App.jsx`) -/

/-- The `useState` cells of `CreateTaskDialog`. -/
structure DialogForm where
  text : JsVal
  priority : JsVal
  tags : List String
  tagInput : String
  dateTime : JsVal
  loading : Bool

/-- The initial values of the cells. -/
def DialogForm.initial : DialogForm :=
  { text := .str "", priority := .str "medium", tags := [], tagInput := "",
    dateTime := .str "", loading := false }

/-- The TypeError of calling a method that a value does not have; `callee` is
the expression that is called, as the source writes it (`data.priority.toLowerCase`). -/
def notAFunction (callee : String) : JsError :=
  { name := "TypeError", message := callee ++ " is not a function" }

/-- The call `text.trim()` on the value `v` of the cell `text`: defined on
strings only. -/
def trimOf (v : JsVal) : Except JsError String :=
  match v with
  | .str s => .ok (jsTrim s)
  | _ => .error (notAFunction "text.trim")

/-- The property `length` of a string: its number of UTF-16 code units. -/
def utf16Length (s : String) : Nat :=
  (s.data.map (fun c => if c.toNat < 65536 then 1 else 2)).sum

/-- String methods of the engine that the dialog calls on returned fields. -/
structure StringMethods where
  /-- The method `toLowerCase` -/
  toLowerCase : String → String
  /-- The call `slice(0, 16)` on a string -/
  slice16 : String → String

/-- How the request of `handleSmartParse` ends: `fetch` rejects, `response.json()`
rejects (the body is not valid JSON), or the body parses to `data`. -/
inductive ParseReply
  | requestFailed (err : JsError)
  | invalidBody (err : JsError)
  | parsed (data : JsVal)

/-- The line `if (data.due_date) setDateTime(data.due_date.slice(0, 16))`. -/
def applyDueDate (m : StringMethods) (data : JsVal) (f : DialogForm) :
    Except JsError Unit × DialogForm :=
  if !(data.getField "due_date").truthy then (.ok (), f)
  else
    match data.getField "due_date" with
    | .str s => (.ok (), { f with dateTime := .str (m.slice16 s) })
    | .arr xs => (.ok (), { f with dateTime := .arr (xs.take 16) })
    | _ => (.error (notAFunction "data.due_date.slice"), f)

/-- The line `if (data.priority) setPriority(data.priority.toLowerCase())` and
what follows it. -/
def applyPriority (m : StringMethods) (data : JsVal) (f : DialogForm) :
    Except JsError Unit × DialogForm :=
  if !(data.getField "priority").truthy then applyDueDate m data f
  else
    match data.getField "priority" with
    | .str s => applyDueDate m data { f with priority := .str (m.toLowerCase s) }
    | _ => (.error (notAFunction "data.priority.toLowerCase"), f)

/-- The three lines of `handleSmartParse` that apply the returned fields, from
`if (data.text) setText(data.text)` on: the form reached, and the error if one
of the lines threw. -/
def applyParsed (m : StringMethods) (data : JsVal) (f : DialogForm) :
    Except JsError Unit × DialogForm :=
  match data.get "text" with
  | .error e => (.error e, f)
  | .ok text => applyPriority m data (if text.truthy then { f with text := text } else f)

/-- The function `handleSmartParse`, given how its request ends. -/
def handleSmartParse (m : StringMethods) (reply : ParseReply) (f : DialogForm) :
    Outcome × DialogForm :=
  match trimOf f.text, f.text with
  | .error e, _ => (.error e, f)
  | .ok trimmed, text =>
    if trimmed = "" ∨ utf16Length (match text with | .str s => s | _ => "") < 5 then
      (.ok .undefined, f)
    else
      let tried : DialogForm :=
        match reply with
        | .requestFailed _ => { f with loading := true }
        | .invalidBody _ => { f with loading := true }
        | .parsed data => (applyParsed m data { f with loading := true }).2
      (.ok .undefined, { tried with loading := false })

/-- The value `Math.floor(ms / 1000)` for the result `ms` of `getTime()`. -/
def floorSeconds (ms : JsNum) : JsNum :=
  match ms with
  | .int z => .int (Int.fdiv z 1000)
  | other => other

/-- One run of `handleCreate`: how it ends, the drafts `onCreate` was called
with, and the form afterwards. -/
structure CreateRun where
  outcome : Outcome
  calls : List JsVal
  form : DialogForm

/-- The function `handleCreate`. `timeValue` is the engine's
`new Date(dateTime).getTime()` and `onCreate` how the awaited `onCreate(task)`
ends. -/
def handleCreate (timeValue : JsVal → JsNum) (onCreate : JsVal → Outcome) (f : DialogForm) :
    CreateRun :=
  match trimOf f.text with
  | .error e => { outcome := .error e, calls := [], form := f }
  | .ok trimmed =>
    if trimmed = "" ∨ f.dateTime.truthy = false then
      { outcome := .ok .undefined, calls := [], form := f }
    else
      let task : JsVal :=
        .obj [("text", .str trimmed), ("priority", f.priority),
              ("tags", .arr (f.tags.map JsVal.str)),
              ("remindAt", .num (floorSeconds (timeValue f.dateTime)))]
      match onCreate task with
      | .ok _ =>
        { outcome := .ok .undefined, calls := [task],
          form := { f with text := .str "", priority := .str "medium", tags := [],
                           dateTime := .str "", loading := false } }
      | .error e =>
        { outcome := .error e, calls := [task], form := { f with loading := false } }

/-- The cells of `App` that `handleCreateTask` writes. -/
structure AppShell where
  createDialogOpen : Bool
  notificationOpen : Bool
  notificationMessage : String
  notificationType : String

/-- The function `handleCreateTask` of `App`: it awaits `createTask` and catches
its rejection. -/
def handleCreateTask (p : TasksProps) (remote : Remote) (taskData : JsVal) (app : AppShell)
    (w : World) : Outcome × AppShell × World :=
  match (createTask p remote taskData w).1 with
  | .ok _ =>
    (.ok .undefined,
     { createDialogOpen := false, notificationOpen := true,
       notificationMessage := "✨ Task created!", notificationType := "success" },
     (createTask p remote taskData w).2)
  | .error _ =>
    (.ok .undefined,
     { app with notificationOpen := true, notificationMessage := "Error creating task",
                notificationType := "error" },
     (createTask p remote taskData w).2)

/-! ## Example inputs -/

/-- A window in which all three identity sources are available at once. -/
def windowAllSources : Window :=
  { webApp := some { initData := .str "query_id=A",
                     initDataUnsafe := .obj [("user", .obj [("id", .num (.int 777)),
                                                           ("first_name", .str "Ann")])] },
    search := [("userId", "42")], hostname := "localhost" }

/-- A window whose only identity source is the URL parameter `userId=9007199254740993`. -/
def windowLargeParam : Window :=
  { webApp := none, search := [("userId", "9007199254740993")], hostname := "example.org" }

/-- A window whose only identity source is the URL parameter `userId=42`. -/
def windowParam42 : Window :=
  { webApp := none, search := [("userId", "42")], hostname := "example.org" }

/-- A window whose only identity source is the URL parameter `userId=abc`. -/
def windowUnparsableParam : Window :=
  { webApp := none, search := [("userId", "abc")], hostname := "example.org" }

/-- A window with no identity source, on a production-like origin. -/
def windowNoSource : Window :=
  { webApp := none, search := [("tab", "calendar")], hostname := "taskbot.example.org" }

/-- A signed-in user of the synchronizer, as the URL identity supplies it. -/
def propsUser42 : TasksProps :=
  { userId := .num (.int 42), authToken := .str "" }

/-- A hook state with one cached task and a cached profile, nothing in flight. -/
def worldLoaded : World :=
  { state := { tasks := .arr [.obj [("id", .str "t1"), ("text", .str "Buy milk")]],
               profile := .obj [("level", .num (.int 2)), ("totalXP", .num (.int 150))],
               loading := false, error := .null, initialized := true },
    net := [] }

/-- The error of a request that could not reach the service. -/
def networkError : JsError :=
  { name := "AxiosError", message := "Network Error" }

/-- A service that accepts every mutation and fails every `GET`. -/
def remoteGetFails : Remote := fun _ req =>
  match req.method with
  | .get => .fail networkError
  | .post => .ok (.obj [("task", .obj [("id", .str "t2"), ("text", .str "Walk dog")])])
  | _ => .ok (.obj [("gamification", .obj [("xp_earned", .num (.int 10))])])

/-- A service that answers every request with the JSON body `null`. -/
def remoteNullBody : Remote := fun _ _ => .ok .null

/-- A service that fails every request. -/
def remoteDown : Remote := fun _ _ => .fail networkError

/-- A service that answers every request with a body of the documented shape. -/
def remoteHealthy : Remote := fun _ req =>
  match req.method with
  | .get =>
    if req.url = "/tasks" then
      .ok (.obj [("tasks", .arr [.obj [("id", .str "t2"), ("text", .str "Walk dog")]])])
    else .ok (.obj [("level", .num (.int 3)), ("totalXP", .num (.int 160))])
  | .post => .ok (.obj [("task", .obj [("id", .str "t2"), ("text", .str "Walk dog")])])
  | _ => .ok (.obj [("gamification", .obj [("xp_earned", .num (.int 10))])])

/-- A fresh hook state: nothing cached, nothing in flight, not initialized. -/
def worldFresh : World :=
  { state := TasksState.initial, net := [] }

/-- The arguments of `useTasks` before the identity is resolved. -/
def propsUnresolved : TasksProps :=
  { userId := .null, authToken := .null }

/-- The arguments of `useTasks` for the URL identity of `?userId=0`. -/
def propsUserZero : TasksProps :=
  { userId := .num (.int 0), authToken := .str "" }

/-- A profile body without `xpProgress` and `xpForNextLevel`. -/
def profileWithoutProgress : JsVal :=
  .obj [("level", .num (.int 3)), ("totalXP", .num (.int 250))]

/-- A profile body with all the counters. -/
def profileComplete : JsVal :=
  .obj [("level", .num (.int 3)), ("totalXP", .num (.int 250)),
        ("xpProgress", .num (.int 40)), ("xpForNextLevel", .num (.int 150))]

/-- Three tasks: one due in 100 seconds, one done, one due in 100000 seconds as a
string (for the clock `1700000000000`). -/
def sampleTasks : List Task :=
  [ { id := .str "a", text := .str "Buy milk", status := .null,
      remindAt := .num (.int 1700000100) },
    { id := .str "b", text := .str "Call mom", status := .str "done",
      remindAt := .num (.int 1700000100) },
    { id := .str "c", text := .str "Walk dog", status := .null,
      remindAt := .str "1700100000" } ]

/-- A host object without a user, as outside a chat. -/
def hostWithoutUser : WebApp :=
  { initData := .str "", initDataUnsafe := .obj [] }

/-- A zone like Central Europe in spring 2026: one hour ahead of UTC until
29 March 2026 01:00 UTC (time value 1774746000000), two hours from then on. -/
def zoneWithSummerTime : TimeZone :=
  { offsetAt := fun t => if t < 1774746000000 then 3600000 else 7200000
    offsetOfLocal := fun t => if t < 1774746000000 + 7200000 then 3600000 else 7200000 }

/-- The time value of 9 April 2026 23:30 UTC: 10 April 01:30 in
`zoneWithSummerTime`. -/
def aprilNight : Int := 1775777400000

/-- The time value of 4 November 2026 12:00 UTC. -/
def novemberNoon : Int := 1793793600000

/-- One task, due on 14 November 2023. -/
def tasksOfAnotherYear : List Task :=
  [ { id := .str "a", text := .str "Buy milk", status := .null,
      remindAt := .num (.int 1700000000) } ]

/-- String methods for plain ASCII strings. -/
def asciiMethods : StringMethods :=
  { toLowerCase := fun s => String.mk (s.data.map Char.toLower)
    slice16 := fun s => String.mk (s.data.take 16) }

/-- A form with a task typed in and a date chosen. -/
def formFilled : DialogForm :=
  { text := .str "  milk tomorrow ", priority := .str "high", tags := ["home"], tagInput := "",
    dateTime := .str "2026-11-05T10:00", loading := false }

/-- A parse result whose `priority` is a number. -/
def parsedWithBadPriority : JsVal :=
  .obj [("text", .str "Buy milk"), ("priority", .num (.int 5))]

/-- A parse result whose `due_date` is a number. -/
def parsedWithBadDueDate : JsVal :=
  .obj [("text", .str "Buy milk"), ("priority", .str "LOW"), ("due_date", .num (.int 5))]

/-- The engine's `new Date(dateTime).getTime()` for the one string used in the
examples (UTC), `NaN` otherwise. -/
def sampleTimeValue (dateTime : JsVal) : JsNum :=
  match dateTime with
  | .str "2026-11-05T10:00" => .int 1793872800000
  | _ => .nan

/-- The cells of `App` while the create dialog is open. -/
def appDialogOpen : AppShell :=
  { createDialogOpen := true, notificationOpen := false, notificationMessage := "",
    notificationType := "success" }

/-! ## Lemmas on the resolver -/

theorem authenticate_host (win : Window) (s0 : TelegramState)
    (h : (hostUser win.webApp).truthy = true) :
    (authenticate win s0).1 =
      { s0 with userId := (hostUser win.webApp).getField "id", user := hostUser win.webApp,
                initData := (match win.webApp with
                  | some app => app.initData
                  | none => .undefined),
                isLoading := false } := by
  simp [authenticate, h]

theorem authenticate_url (win : Window) (s0 : TelegramState) (v : String)
    (h : (hostUser win.webApp).truthy = false)
    (hv : urlParamsGet win.search "userId" = some v) (hne : v ≠ "") :
    (authenticate win s0).1 =
      { s0 with userId := .num (parseInt v),
                user := .obj [("id", .num (parseInt v)), ("first_name", .str "User")],
                initData := .str "", isLoading := false } := by
  have ht : (JsVal.ofOptString (some v)).truthy = true := by
    simp [JsVal.ofOptString, JsVal.truthy, hne]
  simp [authenticate, h, hv, ht]

theorem param_falsy_iff (o : Option String) :
    (JsVal.ofOptString o).truthy = false ↔ (o = none ∨ o = some "") := by
  cases o with
  | none => simp [JsVal.ofOptString, JsVal.truthy]
  | some v => simp [JsVal.ofOptString, JsVal.truthy]

theorem authenticate_dev (win : Window) (s0 : TelegramState)
    (h : (hostUser win.webApp).truthy = false)
    (hv : (JsVal.ofOptString (urlParamsGet win.search "userId")).truthy = false)
    (hh : win.hostname = "localhost" ∨ win.hostname = "127.0.0.1") :
    (authenticate win s0).1 =
      { s0 with userId := .num (.int 12345),
                user := .obj [("id", .num (.int 12345)), ("first_name", .str "Dev User")],
                initData := .str "", isLoading := false } := by
  simp [authenticate, h, hv, hh]

theorem authenticate_fail (win : Window) (s0 : TelegramState)
    (h : (hostUser win.webApp).truthy = false)
    (hv : (JsVal.ofOptString (urlParamsGet win.search "userId")).truthy = false)
    (hh : ¬ (win.hostname = "localhost" ∨ win.hostname = "127.0.0.1")) :
    (authenticate win s0).1 =
      { s0 with error := .str "Please open via Telegram bot", isLoading := false } := by
  simp [authenticate, h, hv, hh]

/-- C1 (amended): identity resolution is a strict priority chain. A truthy host
user (every user object is) gives the host identity whatever the URL and the
hostname are; otherwise a non-empty `userId` URL parameter gives the URL
identity whatever the hostname is; otherwise the hostname `localhost` or
`127.0.0.1` gives the development identity 12345; and an error is set only
when none of the three applies. -/
theorem resolution_priority_chain (win : Window) :
    ((hostUser win.webApp).truthy = true →
      (useTelegram win).userId = (hostUser win.webApp).getField "id" ∧
      (useTelegram win).user = hostUser win.webApp ∧
      (∀ app, win.webApp = some app → (useTelegram win).initData = app.initData) ∧
      (useTelegram win).error = .null ∧ (useTelegram win).isLoading = false) ∧
    ((hostUser win.webApp).truthy = false →
      ∀ v, urlParamsGet win.search "userId" = some v → v ≠ "" →
      (useTelegram win).userId = .num (parseInt v) ∧
      (useTelegram win).user = .obj [("id", .num (parseInt v)), ("first_name", .str "User")] ∧
      (useTelegram win).initData = .str "" ∧
      (useTelegram win).error = .null ∧ (useTelegram win).isLoading = false) ∧
    ((hostUser win.webApp).truthy = false →
      (urlParamsGet win.search "userId" = none ∨ urlParamsGet win.search "userId" = some "") →
      (win.hostname = "localhost" ∨ win.hostname = "127.0.0.1") →
      (useTelegram win).userId = .num (.int 12345) ∧
      (useTelegram win).user =
        .obj [("id", .num (.int 12345)), ("first_name", .str "Dev User")] ∧
      (useTelegram win).initData = .str "" ∧
      (useTelegram win).error = .null ∧ (useTelegram win).isLoading = false) ∧
    ((useTelegram win).error ≠ .null →
      (useTelegram win).userId = .null ∧
      (hostUser win.webApp).truthy = false ∧
      (urlParamsGet win.search "userId" = none ∨ urlParamsGet win.search "userId" = some "") ∧
      win.hostname ≠ "localhost" ∧ win.hostname ≠ "127.0.0.1") := by
  refine ⟨fun h => ?_, fun h v hv hne => ?_, fun h hv hh => ?_, fun herr => ?_⟩
  · have e := authenticate_host win TelegramState.initial h
    refine ⟨?_, ?_, ?_, ?_, ?_⟩ <;> simp only [useTelegram, e]
    · intro app happ
      simp [happ]
    · rfl
  · have e := authenticate_url win TelegramState.initial v h hv hne
    refine ⟨?_, ?_, ?_, ?_, ?_⟩ <;> simp only [useTelegram, e]
    rfl
  · have e := authenticate_dev win TelegramState.initial h ((param_falsy_iff _).2 hv) hh
    refine ⟨?_, ?_, ?_, ?_, ?_⟩ <;> simp only [useTelegram, e]
    rfl
  · by_cases h : (hostUser win.webApp).truthy = true
    · exact absurd (by simp only [useTelegram, authenticate_host win _ h]; rfl) herr
    · have h : (hostUser win.webApp).truthy = false := by simpa using h
      by_cases hv : (JsVal.ofOptString (urlParamsGet win.search "userId")).truthy = true
      · cases hp : urlParamsGet win.search "userId" with
        | none => simp [hp, JsVal.ofOptString, JsVal.truthy] at hv
        | some v =>
          have hne : v ≠ "" := by
            simpa [hp, JsVal.ofOptString, JsVal.truthy] using hv
          exact absurd (by simp only [useTelegram, authenticate_url win _ v h hp hne]; rfl) herr
      · have hv : (JsVal.ofOptString (urlParamsGet win.search "userId")).truthy = false := by
          simpa using hv
        by_cases hh : win.hostname = "localhost" ∨ win.hostname = "127.0.0.1"
        · exact absurd (by simp only [useTelegram, authenticate_dev win _ h hv hh]; rfl) herr
        · have e := authenticate_fail win TelegramState.initial h hv hh
          refine ⟨?_, h, (param_falsy_iff _).1 hv, fun hl => hh (Or.inl hl),
            fun hl => hh (Or.inr hl)⟩
          simp only [useTelegram, e]
          rfl

/-- Witness for C1: with a host user, a `userId` parameter and the hostname
`localhost` all present, the host identity wins. -/
theorem resolution_priority_chain_witness :
    (useTelegram windowAllSources).userId = .num (.int 777) :=
  ((resolution_priority_chain windowAllSources).1 rfl).1

/-- C1 as stated fails: a `userId` parameter that is present but empty
(`?userId=`) is passed over, so on `localhost` the development identity is used
and on another host the failure state is produced. -/
theorem resolution_empty_param_counterexample :
    urlParamsGet [("userId", "")] "userId" = some "" ∧
    (useTelegram { webApp := none, search := [("userId", "")], hostname := "localhost" }).userId
      = .num (.int 12345) ∧
    (useTelegram { webApp := none, search := [("userId", "")], hostname := "localhost" }).user
      = .obj [("id", .num (.int 12345)), ("first_name", .str "Dev User")] ∧
    (useTelegram { webApp := none, search := [("userId", "")], hostname := "example.org" }).userId
      = .null ∧
    (useTelegram { webApp := none, search := [("userId", "")], hostname := "example.org" }).error
      = .str "Please open via Telegram bot" :=
  ⟨rfl, rfl, rfl, rfl, rfl⟩


/-! ## Lemmas on `parseInt` and decimal literals -/

theorem digitChar_facts (d : Nat) (h : d < 10) :
    radixDigit 10 (Nat.digitChar d) = some d ∧
    isStrWhiteSpaceChar (Nat.digitChar d) = false ∧
    Nat.digitChar d ≠ '-' ∧ Nat.digitChar d ≠ '+' ∧
    Nat.digitChar d ≠ 'x' ∧ Nat.digitChar d ≠ 'X' := by
  interval_cases d <;> decide

/-- Every character written by `toDigitsCore` is one of `0` to `9`. -/
theorem toDigitsCore_all (fuel : Nat) : ∀ (n : Nat) (ds : List Char),
    (∀ c ∈ ds, ∃ d, d < 10 ∧ c = Nat.digitChar d) →
    ∀ c ∈ Nat.toDigitsCore 10 fuel n ds, ∃ d, d < 10 ∧ c = Nat.digitChar d := by
  induction fuel with
  | zero => intro n ds h; simpa [Nat.toDigitsCore] using h
  | succ fuel ih =>
    intro n ds h
    have hd : ∀ c ∈ Nat.digitChar (n % 10) :: ds, ∃ d, d < 10 ∧ c = Nat.digitChar d := by
      intro c hc
      rcases List.mem_cons.1 hc with rfl | hc
      · exact ⟨n % 10, Nat.mod_lt _ (by decide), rfl⟩
      · exact h c hc
    simp only [Nat.toDigitsCore]
    split
    · exact hd
    · exact ih _ _ hd

theorem toDigits_all (n : Nat) :
    ∀ c ∈ Nat.toDigits 10 n, ∃ d, d < 10 ∧ c = Nat.digitChar d :=
  toDigitsCore_all (n + 1) n [] (by simp)

theorem toDigitsCore_ne_nil (fuel n : Nat) (c : Char) (ds : List Char) :
    Nat.toDigitsCore 10 fuel n (c :: ds) ≠ [] := by
  induction fuel generalizing n c ds with
  | zero => simp [Nat.toDigitsCore]
  | succ fuel ih =>
    simp only [Nat.toDigitsCore]
    split
    · simp
    · exact ih _ _ _

theorem toDigits_ne_nil (n : Nat) : Nat.toDigits 10 n ≠ [] := by
  simp only [Nat.toDigits, Nat.toDigitsCore]
  split
  · simp
  · exact toDigitsCore_ne_nil _ _ _ _

theorem leadingDigits_digitChar (d : Nat) (h : d < 10) (cs : List Char) :
    leadingDigits 10 (Nat.digitChar d :: cs) = d :: leadingDigits 10 cs := by
  simp [leadingDigits, (digitChar_facts d h).1]

/-- The digits written by `toDigitsCore` in front of `ds` count for `n`. -/
theorem toDigitsCore_value (fuel : Nat) : ∀ (n : Nat) (ds : List Char), n < fuel →
    (leadingDigits 10 (Nat.toDigitsCore 10 fuel n ds)).foldl (fun acc d => acc * 10 + d) 0 =
      (leadingDigits 10 ds).foldl (fun acc d => acc * 10 + d) n := by
  induction fuel with
  | zero => intro n ds h; omega
  | succ fuel ih =>
    intro n ds h
    simp only [Nat.toDigitsCore]
    split
    · rename_i h0
      rw [leadingDigits_digitChar _ (Nat.mod_lt _ (by decide))]
      simp only [List.foldl_cons]
      congr 1
      omega
    · rename_i h0
      rw [ih (n / 10) _ (by omega), leadingDigits_digitChar _ (Nat.mod_lt _ (by decide))]
      simp only [List.foldl_cons]
      congr 1
      omega

theorem mathInt_toDigits (n : Nat) : mathInt 10 (leadingDigits 10 (Nat.toDigits 10 n)) = n := by
  have h := toDigitsCore_value (n + 1) n [] (by omega)
  simpa [mathInt, Nat.toDigits, leadingDigits] using h

theorem leadingDigits_toDigits_ne_nil (n : Nat) : leadingDigits 10 (Nat.toDigits 10 n) ≠ [] := by
  have hall := toDigits_all n
  cases hcs : Nat.toDigits 10 n with
  | nil => exact absurd hcs (toDigits_ne_nil n)
  | cons c cs =>
    obtain ⟨d, hd, rfl⟩ := hall c (by simp [hcs])
    simp [leadingDigits_digitChar d hd]

/-- On a string of decimal digits, `parseMagnitude` reads the whole number. -/
theorem parseMagnitude_toDigits (negative : Bool) (n : Nat) :
    parseMagnitude negative (Nat.toDigits 10 n) = numberOf negative n := by
  have hall := toDigits_all n
  have hval := mathInt_toDigits n
  have hne := leadingDigits_toDigits_ne_nil n
  unfold parseMagnitude
  split
  · rename_i t heq
    obtain ⟨d, hd, hx⟩ := hall 'x' (by simp [heq])
    exact absurd hx.symm (digitChar_facts d hd).2.2.2.2.1
  · rename_i t heq
    obtain ⟨d, hd, hx⟩ := hall 'X' (by simp [heq])
    exact absurd hx.symm (digitChar_facts d hd).2.2.2.2.2
  · simp [hne, hval]

theorem parseIntChars_toDigits (n : Nat) :
    parseIntChars (Nat.toDigits 10 n) = numberOf false n := by
  have hall := toDigits_all n
  cases hcs : Nat.toDigits 10 n with
  | nil => exact absurd hcs (toDigits_ne_nil n)
  | cons c cs =>
    obtain ⟨d, hd, rfl⟩ := hall c (by simp [hcs])
    have hf := digitChar_facts d hd
    unfold parseIntChars
    rw [List.dropWhile_cons_of_neg (by simp [hf.2.1])]
    split
    · rename_i t heq
      exact absurd (List.cons.inj heq).1 hf.2.2.1
    · rename_i t heq
      exact absurd (List.cons.inj heq).1 hf.2.2.2.1
    · rw [← hcs]
      exact parseMagnitude_toDigits false n

theorem parseIntChars_neg_toDigits (n : Nat) :
    parseIntChars ('-' :: Nat.toDigits 10 n) = numberOf true n := by
  unfold parseIntChars
  rw [List.dropWhile_cons_of_neg (by decide)]
  exact parseMagnitude_toDigits true n


theorem bitLengthAux_le (fuel : Nat) : ∀ (m k : Nat), m < 2 ^ k → bitLengthAux fuel m ≤ k := by
  induction fuel with
  | zero => intro m k _; simp [bitLengthAux]
  | succ fuel ih =>
    intro m k h
    simp only [bitLengthAux]
    split
    · omega
    · rename_i hm
      cases k with
      | zero => simp at h; omega
      | succ k =>
        have : m / 2 < 2 ^ k := by
          rw [Nat.div_lt_iff_lt_mul (by decide)]
          simpa [Nat.pow_succ] using h
        have := ih (m / 2) k this
        omega

/-- Integers of magnitude at most `2 ^ 53` are doubles: no rounding, no overflow. -/
theorem numberOf_exact (negative : Bool) (m : Nat) (h0 : m ≠ 0) (h : m ≤ 2 ^ 53) :
    numberOf negative m = .int (if negative then -(m : Int) else (m : Int)) := by
  have hr : roundToDouble m = m := by
    rcases Nat.lt_or_ge m (2 ^ 53) with hlt | hge
    · unfold roundToDouble
      rw [if_pos hlt]
    · have : m = 2 ^ 53 := le_antisymm h hge
      subst this
      decide
  have hb : ¬ 1024 < bitLength (roundToDouble m) := by
    rw [hr]
    have : bitLength m ≤ 54 := bitLengthAux_le m m 54 (by
      calc m ≤ 2 ^ 53 := h
        _ < 2 ^ 54 := by decide)
    omega
  rw [hr] at hb
  unfold numberOf
  rw [if_neg h0]
  simp only [hr, if_neg hb]

theorem parseInt_decimalLiteral (n : Int) (h : |n| ≤ 2 ^ 53) :
    parseInt (decimalLiteral n) = .int n := by
  cases n with
  | ofNat m =>
    have hm : m ≤ 2 ^ 53 := by
      have : ((m : Nat) : Int) ≤ 2 ^ 53 := by simpa using h
      exact_mod_cast this
    show parseIntChars (Nat.toDigits 10 m) = _
    rw [parseIntChars_toDigits]
    by_cases h0 : m = 0
    · subst h0; rfl
    · rw [numberOf_exact false m h0 hm]; rfl
  | negSucc m =>
    have hm : m + 1 ≤ 2 ^ 53 := by
      have h1 : |Int.negSucc m| = ((m + 1 : Nat) : Int) := by
        rw [Int.negSucc_eq, abs_neg]
        exact abs_of_nonneg (by positivity)
      rw [h1] at h
      exact_mod_cast h
    have hd : (decimalLiteral (Int.negSucc m)).data = '-' :: Nat.toDigits 10 (m + 1) := by
      simp [decimalLiteral, Nat.repr, List.asString]
    show parseIntChars (decimalLiteral (Int.negSucc m)).data = _
    rw [hd, parseIntChars_neg_toDigits, numberOf_exact true (m + 1) (by omega) hm]
    rfl

theorem decimalLiteral_ne_empty (n : Int) : decimalLiteral n ≠ "" := by
  intro h
  have hd := congrArg String.data h
  cases n with
  | ofNat m =>
    have : Nat.toDigits 10 m = [] := by simpa [decimalLiteral, Nat.repr, List.asString] using hd
    exact toDigits_ne_nil m this
  | negSucc m =>
    simp [decimalLiteral, Nat.repr, List.asString] at hd

/-- C3 (amended): with no host user, a `userId` URL parameter that is the decimal
literal of an integer `n` with `|n| ≤ 2 ^ 53` resolves to the number `n`, the
display object `{id: n, first_name: 'User'}` and the empty `authToken`. -/
theorem url_param_resolves_to_number (win : Window) (n : Int)
    (hu : (hostUser win.webApp).truthy = false)
    (hp : urlParamsGet win.search "userId" = some (decimalLiteral n))
    (hn : |n| ≤ 2 ^ 53) :
    (useTelegram win).userId = .num (.int n) ∧
    (useTelegram win).user = .obj [("id", .num (.int n)), ("first_name", .str "User")] ∧
    (useTelegram win).initData = .str "" := by
  have e := authenticate_url win TelegramState.initial _ hu hp (decimalLiteral_ne_empty n)
  rw [parseInt_decimalLiteral n hn] at e
  refine ⟨?_, ?_, ?_⟩ <;> simp only [useTelegram, e]

/-- Witness for C3: `?userId=42` resolves to the number 42. -/
theorem url_param_resolves_to_number_witness :
    (useTelegram windowParam42).userId = .num (.int 42) ∧
    (useTelegram windowParam42).user = .obj [("id", .num (.int 42)), ("first_name", .str "User")] ∧
    (useTelegram windowParam42).initData = .str "" :=
  url_param_resolves_to_number windowParam42 42 rfl (by decide) (by decide)

/-- C3 as stated fails: `9007199254740993` is the decimal literal of `2 ^ 53 + 1`,
and `parseInt` yields the double `9007199254740992` for it. -/
theorem url_param_large_counterexample :
    urlParamsGet windowLargeParam.search "userId" = some (decimalLiteral 9007199254740993) ∧
    (hostUser windowLargeParam.webApp).truthy = false ∧
    (useTelegram windowLargeParam).userId = .num (.int 9007199254740992) ∧
    (useTelegram windowLargeParam).userId ≠ .num (.int 9007199254740993) := by
  refine ⟨by decide, rfl, rfl, ?_⟩
  have h : (useTelegram windowLargeParam).userId = .num (.int 9007199254740992) := rfl
  rw [h]
  simp

/-- C2: on a hostname other than `localhost` and `127.0.0.1`, with no host user
and no (or an empty) `userId` URL parameter, resolution ends in the failure
state: `userId` and `user` stay null, `error` is set, `isLoading` and `isReady`
are false, and the development identity 12345 is not produced. -/
theorem no_source_gives_failure (win : Window)
    (hu : (hostUser win.webApp).truthy = false)
    (hp : urlParamsGet win.search "userId" = none ∨ urlParamsGet win.search "userId" = some "")
    (h1 : win.hostname ≠ "localhost") (h2 : win.hostname ≠ "127.0.0.1") :
    (useTelegram win).userId = .null ∧
    (useTelegram win).user = .null ∧
    (useTelegram win).error = .str "Please open via Telegram bot" ∧
    (useTelegram win).error ≠ .null ∧
    (useTelegram win).isLoading = false ∧
    (useTelegram win).isReady = false ∧
    (useTelegram win).userId ≠ .num (.int 12345) := by
  have e := authenticate_fail win TelegramState.initial hu ((param_falsy_iff _).2 hp)
    (by rintro (h | h) <;> contradiction)
  refine ⟨?_, ?_, ?_, ?_, ?_, ?_, ?_⟩ <;> simp only [useTelegram, e] <;>
    simp [TelegramState.initial, JsVal.truthy]

/-- Witness for C2: a production-like origin with no identity source. -/
theorem no_source_gives_failure_witness :
    (useTelegram windowNoSource).userId = .null ∧
    (useTelegram windowNoSource).error = .str "Please open via Telegram bot" ∧
    (useTelegram windowNoSource).isReady = false :=
  have h := no_source_gives_failure windowNoSource rfl (Or.inl rfl) (by decide) (by decide)
  ⟨h.1, h.2.2.1, h.2.2.2.2.2.1⟩

/-- C4 fails on `?userId=abc` with no host context: `parseInt` gives `NaN`, so
resolution ends with `userId` `NaN`, `error` null and `isReady` false, and `App`
shows the main interface. -/
theorem unparsable_param_state :
    (useTelegram windowUnparsableParam).userId = .num .nan ∧
    (useTelegram windowUnparsableParam).error = .null ∧
    (useTelegram windowUnparsableParam).isLoading = false ∧
    (useTelegram windowUnparsableParam).isReady = false ∧
    appView false (useTelegram windowUnparsableParam) = .main :=
  ⟨rfl, rfl, rfl, rfl, rfl⟩


/-! ## Lemmas on the synchronizer -/

theorem issued_append (a b : List NetEvent) : issued (a ++ b) = issued a ++ issued b := by
  induction a with
  | nil => rfl
  | cons e es ih => cases e <;> simp [issued, ih]

theorem send_fst (remote : Remote) (req : Request) (w : World) :
    (send remote req w).1 = remote (issued w.net) req := rfl

theorem send_snd (remote : Remote) (req : Request) (w : World) :
    (send remote req w).2 =
      { w with net := w.net ++ [.started req, .settled req (remote (issued w.net) req)] } := rfl

theorem issued_send (remote : Remote) (req : Request) (w : World) :
    issued (send remote req w).2.net = issued w.net ++ [req] := by
  simp [send_snd, issued_append, issued]

/-- With `userId` falsy, `fetchTasks` does nothing. -/
theorem fetchTasks_unset (p : TasksProps) (remote : Remote) (w : World)
    (h : p.userId.truthy = false) : fetchTasks p remote w = (.ok .undefined, w) := by
  simp [fetchTasks, h]

/-- What `fetchTasks` does when its request succeeds with a readable body. -/
theorem fetchTasks_ok (p : TasksProps) (remote : Remote) (w : World) (data : JsVal)
    (h : p.userId.truthy = true)
    (hr : remote (issued w.net) (apiRequest p .get "/tasks" .undefined) = .ok data)
    (hd : data.isNullish = false) :
    fetchTasks p remote w =
      (.ok .undefined,
       { state := { w.state with tasks := (data.getField "tasks").orElse (.arr []),
                                 error := .null, loading := false },
         net := w.net ++ [.started (apiRequest p .get "/tasks" .undefined),
                          .settled (apiRequest p .get "/tasks" .undefined) (.ok data)] }) := by
  simp [fetchTasks, h, send_fst, send_snd, hr, JsVal.get, hd, World.setTasks, World.setError,
    World.setLoading]

/-- What `fetchTasks` does when its request succeeds with a `null` or
`undefined` body: reading `tasks` throws, and the `catch` records the message. -/
theorem fetchTasks_unreadable (p : TasksProps) (remote : Remote) (w : World) (data : JsVal)
    (h : p.userId.truthy = true)
    (hr : remote (issued w.net) (apiRequest p .get "/tasks" .undefined) = .ok data)
    (hd : data.isNullish = true) :
    fetchTasks p remote w =
      (.ok .undefined,
       { state := { w.state with error := .str (propertyReadError data "tasks").message,
                                 loading := false },
         net := w.net ++ [.started (apiRequest p .get "/tasks" .undefined),
                          .settled (apiRequest p .get "/tasks" .undefined) (.ok data)] }) := by
  simp [fetchTasks, h, send_fst, send_snd, hr, JsVal.get, hd, World.setError, World.setLoading]

/-- What `fetchTasks` does when its request fails. -/
theorem fetchTasks_fail (p : TasksProps) (remote : Remote) (w : World) (e : JsError)
    (h : p.userId.truthy = true)
    (hr : remote (issued w.net) (apiRequest p .get "/tasks" .undefined) = .fail e) :
    fetchTasks p remote w =
      (.ok .undefined,
       { state := { w.state with error := .str e.message, loading := false },
         net := w.net ++ [.started (apiRequest p .get "/tasks" .undefined),
                          .settled (apiRequest p .get "/tasks" .undefined) (.fail e)] }) := by
  simp [fetchTasks, h, send_fst, send_snd, hr, World.setError, World.setLoading]

/-- Whatever the service does, `fetchTasks` resolves, issues exactly its one
request and leaves the profile cache alone. -/
theorem fetchTasks_frame (p : TasksProps) (remote : Remote) (w : World)
    (h : p.userId.truthy = true) :
    (fetchTasks p remote w).1 = .ok .undefined ∧
    (fetchTasks p remote w).2.net =
      w.net ++ [.started (apiRequest p .get "/tasks" .undefined),
                .settled (apiRequest p .get "/tasks" .undefined)
                  (remote (issued w.net) (apiRequest p .get "/tasks" .undefined))] ∧
    (fetchTasks p remote w).2.state.profile = w.state.profile := by
  cases hr : remote (issued w.net) (apiRequest p .get "/tasks" .undefined) with
  | fail e => simp [fetchTasks_fail p remote w e h hr]
  | ok data =>
    cases hd : data.isNullish with
    | true => simp [fetchTasks_unreadable p remote w data h hr hd]
    | false => simp [fetchTasks_ok p remote w data h hr hd]

/-- What `fetchProfile` does when its request succeeds. -/
theorem fetchProfile_ok (p : TasksProps) (remote : Remote) (w : World) (data : JsVal)
    (h : p.userId.truthy = true)
    (hr : remote (issued w.net) (apiRequest p .get "/profile" .undefined) = .ok data) :
    fetchProfile p remote w =
      (.ok .undefined,
       { state := { w.state with profile := data },
         net := w.net ++ [.started (apiRequest p .get "/profile" .undefined),
                          .settled (apiRequest p .get "/profile" .undefined) (.ok data)] }) := by
  simp [fetchProfile, h, send_fst, send_snd, hr, World.setProfile]

/-- What `fetchProfile` does when its request fails. -/
theorem fetchProfile_fail (p : TasksProps) (remote : Remote) (w : World) (e : JsError)
    (h : p.userId.truthy = true)
    (hr : remote (issued w.net) (apiRequest p .get "/profile" .undefined) = .fail e) :
    fetchProfile p remote w =
      (.ok .undefined,
       { w with net := w.net ++ [.started (apiRequest p .get "/profile" .undefined),
                                 .settled (apiRequest p .get "/profile" .undefined) (.fail e)] }) := by
  simp [fetchProfile, h, send_fst, send_snd, hr]

/-- Whatever the service does, `fetchProfile` resolves, issues exactly its one
request and leaves the tasks cache, the error flag and the loading flag alone. -/
theorem fetchProfile_frame (p : TasksProps) (remote : Remote) (w : World)
    (h : p.userId.truthy = true) :
    (fetchProfile p remote w).1 = .ok .undefined ∧
    (fetchProfile p remote w).2.net =
      w.net ++ [.started (apiRequest p .get "/profile" .undefined),
                .settled (apiRequest p .get "/profile" .undefined)
                  (remote (issued w.net) (apiRequest p .get "/profile" .undefined))] ∧
    (fetchProfile p remote w).2.state.tasks = w.state.tasks ∧
    (fetchProfile p remote w).2.state.error = w.state.error ∧
    (fetchProfile p remote w).2.state.loading = w.state.loading := by
  cases hr : remote (issued w.net) (apiRequest p .get "/profile" .undefined) with
  | fail e => simp [fetchProfile_fail p remote w e h hr]
  | ok data => simp [fetchProfile_ok p remote w data h hr]


/-- After a successful `POST`, `createTask` runs `fetchTasks` and then reads
`task` off the body of the `POST` response. -/
theorem createTask_posted (p : TasksProps) (remote : Remote) (taskData : JsVal) (w : World)
    (data : JsVal) (h : p.userId.truthy = true)
    (hr : remote (issued w.net) (apiRequest p .post "/tasks" taskData) = .ok data) :
    createTask p remote taskData w =
      (data.get "task",
       (fetchTasks p remote (send remote (apiRequest p .post "/tasks" taskData) w).2).2) := by
  have hf := (fetchTasks_frame p remote
    (send remote (apiRequest p .post "/tasks" taskData) w).2 h).1
  simp only [createTask, h, send_fst, hr, hf]
  cases data.get "task" <;> rfl

/-- A failed mutation request makes `createTask` reject at once. -/
theorem createTask_rejected (p : TasksProps) (remote : Remote) (taskData : JsVal) (w : World)
    (e : JsError) (h : p.userId.truthy = true)
    (hr : remote (issued w.net) (apiRequest p .post "/tasks" taskData) = .fail e) :
    createTask p remote taskData w =
      (.error e, { w with net := w.net ++ [.started (apiRequest p .post "/tasks" taskData),
                                           .settled (apiRequest p .post "/tasks" taskData)
                                             (.fail e)] }) := by
  simp [createTask, h, send_fst, send_snd, hr]

/-- After a successful `PUT` with a readable body, `completeTask` runs
`fetchTasks`, then `fetchProfile`, and resolves with `gamification`. -/
theorem completeTask_done (p : TasksProps) (remote : Remote) (taskId : String) (w : World)
    (data : JsVal) (h : p.userId.truthy = true)
    (hr : remote (issued w.net)
      (apiRequest p .put ("/tasks/" ++ taskId ++ "/complete") .undefined) = .ok data)
    (hd : data.isNullish = false) :
    completeTask p remote taskId w =
      (.ok (data.getField "gamification"),
       (fetchProfile p remote (fetchTasks p remote
         (send remote (apiRequest p .put ("/tasks/" ++ taskId ++ "/complete") .undefined)
           w).2).2).2) := by
  have hf := (fetchTasks_frame p remote
    (send remote (apiRequest p .put ("/tasks/" ++ taskId ++ "/complete") .undefined) w).2 h).1
  have hg := (fetchProfile_frame p remote (fetchTasks p remote
    (send remote (apiRequest p .put ("/tasks/" ++ taskId ++ "/complete") .undefined) w).2).2 h).1
  simp only [completeTask, h, send_fst, hr, JsVal.get, hd, hf, hg]
  rfl

/-- A `PUT` response whose body is `null` or `undefined` makes `completeTask`
reject before any refresh. -/
theorem completeTask_unreadable (p : TasksProps) (remote : Remote) (taskId : String) (w : World)
    (data : JsVal) (h : p.userId.truthy = true)
    (hr : remote (issued w.net)
      (apiRequest p .put ("/tasks/" ++ taskId ++ "/complete") .undefined) = .ok data)
    (hd : data.isNullish = true) :
    completeTask p remote taskId w =
      (.error (propertyReadError data "gamification"),
       (send remote (apiRequest p .put ("/tasks/" ++ taskId ++ "/complete") .undefined) w).2) := by
  simp only [completeTask, h, send_fst, hr, JsVal.get, hd]
  rfl

/-- A failed mutation request makes `completeTask` reject at once. -/
theorem completeTask_rejected (p : TasksProps) (remote : Remote) (taskId : String) (w : World)
    (e : JsError) (h : p.userId.truthy = true)
    (hr : remote (issued w.net)
      (apiRequest p .put ("/tasks/" ++ taskId ++ "/complete") .undefined) = .fail e) :
    completeTask p remote taskId w =
      (.error e,
       { w with net := w.net ++
          [.started (apiRequest p .put ("/tasks/" ++ taskId ++ "/complete") .undefined),
           .settled (apiRequest p .put ("/tasks/" ++ taskId ++ "/complete") .undefined)
             (.fail e)] }) := by
  simp [completeTask, h, send_fst, send_snd, hr]

/-- After a successful `DELETE` with a readable body, `deleteTask` runs
`fetchTasks`, then `fetchProfile`, and resolves with `gamification`. -/
theorem deleteTask_done (p : TasksProps) (remote : Remote) (taskId : String) (w : World)
    (data : JsVal) (h : p.userId.truthy = true)
    (hr : remote (issued w.net) (apiRequest p .delete ("/tasks/" ++ taskId) .undefined) = .ok data)
    (hd : data.isNullish = false) :
    deleteTask p remote taskId w =
      (.ok (data.getField "gamification"),
       (fetchProfile p remote (fetchTasks p remote
         (send remote (apiRequest p .delete ("/tasks/" ++ taskId) .undefined) w).2).2).2) := by
  have hf := (fetchTasks_frame p remote
    (send remote (apiRequest p .delete ("/tasks/" ++ taskId) .undefined) w).2 h).1
  have hg := (fetchProfile_frame p remote (fetchTasks p remote
    (send remote (apiRequest p .delete ("/tasks/" ++ taskId) .undefined) w).2).2 h).1
  simp only [deleteTask, h, send_fst, hr, JsVal.get, hd, hf, hg]
  rfl

/-- A `DELETE` response whose body is `null` or `undefined` makes `deleteTask`
reject before any refresh. -/
theorem deleteTask_unreadable (p : TasksProps) (remote : Remote) (taskId : String) (w : World)
    (data : JsVal) (h : p.userId.truthy = true)
    (hr : remote (issued w.net) (apiRequest p .delete ("/tasks/" ++ taskId) .undefined) = .ok data)
    (hd : data.isNullish = true) :
    deleteTask p remote taskId w =
      (.error (propertyReadError data "gamification"),
       (send remote (apiRequest p .delete ("/tasks/" ++ taskId) .undefined) w).2) := by
  simp only [deleteTask, h, send_fst, hr, JsVal.get, hd]
  rfl

/-- A failed mutation request makes `deleteTask` reject at once. -/
theorem deleteTask_rejected (p : TasksProps) (remote : Remote) (taskId : String) (w : World)
    (e : JsError) (h : p.userId.truthy = true)
    (hr : remote (issued w.net) (apiRequest p .delete ("/tasks/" ++ taskId) .undefined) = .fail e) :
    deleteTask p remote taskId w =
      (.error e,
       { w with net := w.net ++
          [.started (apiRequest p .delete ("/tasks/" ++ taskId) .undefined),
           .settled (apiRequest p .delete ("/tasks/" ++ taskId) .undefined) (.fail e)] }) := by
  simp [deleteTask, h, send_fst, send_snd, hr]


/-! ## Claims on the synchronizer -/

/-- C5: with `userId` null, each of `createTask`, `completeTask` and `deleteTask`
fails with the error 'Not authenticated', issues no request and leaves the whole
hook state (tasks, profile, loading, error) as it was. -/
theorem mutations_need_identity (authToken taskData : JsVal) (taskId : String)
    (remote : Remote) (w : World) :
    createTask { userId := .null, authToken := authToken } remote taskData w =
      (.error (JsError.ofMessage "Not authenticated"), w) ∧
    completeTask { userId := .null, authToken := authToken } remote taskId w =
      (.error (JsError.ofMessage "Not authenticated"), w) ∧
    deleteTask { userId := .null, authToken := authToken } remote taskId w =
      (.error (JsError.ofMessage "Not authenticated"), w) :=
  ⟨rfl, rfl, rfl⟩

/-- The events of the three awaited requests of a completion or deletion. -/
theorem net_after_refreshes (p : TasksProps) (remote : Remote) (req : Request) (w : World)
    (h : p.userId.truthy = true) :
    (fetchProfile p remote (fetchTasks p remote (send remote req w).2).2).2.net =
      w.net ++
        [.started req, .settled req (remote (issued w.net) req),
         .started (tasksRequest p),
         .settled (tasksRequest p) (remote (issued w.net ++ [req]) (tasksRequest p)),
         .started (profileRequest p),
         .settled (profileRequest p)
           (remote (issued w.net ++ [req, tasksRequest p]) (profileRequest p))] := by
  have h1 := (fetchTasks_frame p remote (send remote req w).2 h).2.1
  have h2 := (fetchProfile_frame p remote (fetchTasks p remote (send remote req w).2).2 h).2.1
  rw [h2, h1, issued_append, issued_send]
  simp [send_snd, issued, List.append_assoc]


/-- The tasks cache, error flag and profile cache after the two refreshes, in
terms of the replies to `GET /tasks` and `GET /profile`. -/
theorem caches_after_refreshes (p : TasksProps) (remote : Remote) (req : Request) (w : World)
    (h : p.userId.truthy = true) :
    (∀ body, remote (issued w.net ++ [req]) (tasksRequest p) = .ok body →
      body.isNullish = false →
      (fetchProfile p remote (fetchTasks p remote (send remote req w).2).2).2.state.tasks =
        (body.getField "tasks").orElse (.arr [])) ∧
    (∀ e, remote (issued w.net ++ [req]) (tasksRequest p) = .fail e →
      (fetchProfile p remote (fetchTasks p remote (send remote req w).2).2).2.state.tasks =
        w.state.tasks) ∧
    (∀ body, remote (issued w.net ++ [req, tasksRequest p]) (profileRequest p) = .ok body →
      (fetchProfile p remote (fetchTasks p remote (send remote req w).2).2).2.state.profile =
        body) ∧
    (∀ e, remote (issued w.net ++ [req, tasksRequest p]) (profileRequest p) = .fail e →
      (fetchProfile p remote (fetchTasks p remote (send remote req w).2).2).2.state.profile =
        w.state.profile) := by
  have hi1 : issued (send remote req w).2.net = issued w.net ++ [req] := issued_send remote req w
  have hf := fetchTasks_frame p remote (send remote req w).2 h
  have hi2 : issued (fetchTasks p remote (send remote req w).2).2.net =
      issued w.net ++ [req, tasksRequest p] := by
    rw [hf.2.1, issued_append, hi1]
    simp [issued]
  have hg := fetchProfile_frame p remote (fetchTasks p remote (send remote req w).2).2 h
  refine ⟨fun body hb hn => ?_, fun e he => ?_, fun body hb => ?_, fun e he => ?_⟩
  · rw [hg.2.2.1, fetchTasks_ok p remote _ body h (by rw [hi1]; exact hb) hn]
  · rw [hg.2.2.1, fetchTasks_fail p remote _ e h (by rw [hi1]; exact he)]
    rfl
  · rw [fetchProfile_ok p remote _ body h (by rw [hi2]; exact hb)]
  · rw [fetchProfile_fail p remote _ e h (by rw [hi2]; exact he), hf.2.2]
    rfl

/-- C6 (amended): whenever `createTask` resolves, it has issued the `POST` and
then one `GET /tasks`; if that `GET` succeeded with a readable body the tasks
cache is the list it returned (the empty list when the body has no `tasks`) and
the error flag is null; if that `GET` failed the tasks cache is the list from
before the call and the error flag holds the failure's message. -/
theorem createTask_cache_after_refetch (p : TasksProps) (remote : Remote) (taskData : JsVal)
    (w : World) (v : JsVal) (hres : (createTask p remote taskData w).1 = .ok v) :
    (createTask p remote taskData w).2.net =
      w.net ++
        [.started (createRequest p taskData),
         .settled (createRequest p taskData) (remote (issued w.net) (createRequest p taskData)),
         .started (tasksRequest p),
         .settled (tasksRequest p)
           (remote (issued w.net ++ [createRequest p taskData]) (tasksRequest p))] ∧
    (∀ body, remote (issued w.net ++ [createRequest p taskData]) (tasksRequest p) = .ok body →
      body.isNullish = false →
      (createTask p remote taskData w).2.state.tasks = (body.getField "tasks").orElse (.arr []) ∧
      (createTask p remote taskData w).2.state.error = .null) ∧
    (∀ e, remote (issued w.net ++ [createRequest p taskData]) (tasksRequest p) = .fail e →
      (createTask p remote taskData w).2.state.tasks = w.state.tasks ∧
      (createTask p remote taskData w).2.state.error = .str e.message) := by
  have h : p.userId.truthy = true := by
    cases ht : p.userId.truthy with
    | true => rfl
    | false => simp [createTask, ht] at hres
  cases hr : remote (issued w.net) (createRequest p taskData) with
  | fail e => simp [createTask_rejected p remote taskData w e h hr] at hres
  | ok data =>
    have hc := createTask_posted p remote taskData w data h hr
    have hi1 := issued_send remote (createRequest p taskData) w
    have hf := fetchTasks_frame p remote (send remote (createRequest p taskData) w).2 h
    rw [hc]
    refine ⟨?_, fun body hb hn => ?_, fun e he => ?_⟩
    · show (fetchTasks p remote (send remote (createRequest p taskData) w).2).2.net = _
      rw [hf.2.1, hi1]
      simp [send_snd, List.append_assoc, hr]
    · show (fetchTasks p remote (send remote (createRequest p taskData) w).2).2.state.tasks = _ ∧
        (fetchTasks p remote (send remote (createRequest p taskData) w).2).2.state.error = _
      rw [fetchTasks_ok p remote _ body h (by rw [hi1]; exact hb) hn]
      exact ⟨rfl, rfl⟩
    · show (fetchTasks p remote (send remote (createRequest p taskData) w).2).2.state.tasks = _ ∧
        (fetchTasks p remote (send remote (createRequest p taskData) w).2).2.state.error = _
      rw [fetchTasks_fail p remote _ e h (by rw [hi1]; exact he)]
      exact ⟨rfl, rfl⟩


/-- Witness for C6: against a healthy service `createTask` resolves and the
cache is the list the follow-up `GET /tasks` returned. -/
theorem createTask_cache_after_refetch_witness :
    (createTask propsUser42 remoteHealthy (.obj [("text", .str "Walk dog")]) worldLoaded).2.state.tasks
      = .arr [.obj [("id", .str "t2"), ("text", .str "Walk dog")]] :=
  ((createTask_cache_after_refetch propsUser42 remoteHealthy (.obj [("text", .str "Walk dog")])
      worldLoaded (.obj [("id", .str "t2"), ("text", .str "Walk dog")]) rfl).2.1
    (.obj [("tasks", .arr [.obj [("id", .str "t2"), ("text", .str "Walk dog")]])]) rfl rfl).1

/-- C6 as stated fails: when the `POST` succeeds and the follow-up `GET /tasks`
fails, `createTask` still resolves with the created task, no `GET /tasks` has
returned a list, and the tasks cache is the list from before the call. -/
theorem createTask_stale_cache_counterexample :
    (createTask propsUser42 remoteGetFails (.obj [("text", .str "Walk dog")]) worldLoaded).1
      = .ok (.obj [("id", .str "t2"), ("text", .str "Walk dog")]) ∧
    (createTask propsUser42 remoteGetFails (.obj [("text", .str "Walk dog")]) worldLoaded).2.net
      = [.started (createRequest propsUser42 (.obj [("text", .str "Walk dog")])),
         .settled (createRequest propsUser42 (.obj [("text", .str "Walk dog")]))
           (.ok (.obj [("task", .obj [("id", .str "t2"), ("text", .str "Walk dog")])])),
         .started (tasksRequest propsUser42),
         .settled (tasksRequest propsUser42) (.fail networkError)] ∧
    (createTask propsUser42 remoteGetFails (.obj [("text", .str "Walk dog")]) worldLoaded).2.state.tasks
      = worldLoaded.state.tasks ∧
    (createTask propsUser42 remoteGetFails (.obj [("text", .str "Walk dog")]) worldLoaded).2.state.error
      = .str "Network Error" :=
  ⟨rfl, rfl, rfl, rfl⟩

/-- C7 (amended): whenever `completeTask` resolves, each cache reflects its own
refresh only if that refresh succeeded: the tasks cache is the list of the
`GET /tasks` issued after the `PUT` when that request succeeded with a readable
body, and the list from before the call when it failed; the profile cache is the
body of the `GET /profile` issued after the `PUT` when that request succeeded,
and the profile from before the call when it failed. -/
theorem completeTask_caches_after_refresh (p : TasksProps) (remote : Remote) (taskId : String)
    (w : World) (v : JsVal) (hres : (completeTask p remote taskId w).1 = .ok v) :
    (∀ body, remote (issued w.net ++ [completeRequest p taskId]) (tasksRequest p) = .ok body →
      body.isNullish = false →
      (completeTask p remote taskId w).2.state.tasks = (body.getField "tasks").orElse (.arr [])) ∧
    (∀ e, remote (issued w.net ++ [completeRequest p taskId]) (tasksRequest p) = .fail e →
      (completeTask p remote taskId w).2.state.tasks = w.state.tasks) ∧
    (∀ body, remote (issued w.net ++ [completeRequest p taskId, tasksRequest p])
        (profileRequest p) = .ok body →
      (completeTask p remote taskId w).2.state.profile = body) ∧
    (∀ e, remote (issued w.net ++ [completeRequest p taskId, tasksRequest p])
        (profileRequest p) = .fail e →
      (completeTask p remote taskId w).2.state.profile = w.state.profile) := by
  have h : p.userId.truthy = true := by
    cases ht : p.userId.truthy with
    | true => rfl
    | false => simp [completeTask, ht] at hres
  cases hr : remote (issued w.net) (completeRequest p taskId) with
  | fail e => simp [completeTask_rejected p remote taskId w e h hr] at hres
  | ok data =>
    cases hd : data.isNullish with
    | true => simp [completeTask_unreadable p remote taskId w data h hr hd] at hres
    | false =>
      rw [completeTask_done p remote taskId w data h hr hd]
      exact caches_after_refreshes p remote (completeRequest p taskId) w h

/-- Witness for C7: against a healthy service both caches hold what the
refreshes after the `PUT` returned. -/
theorem completeTask_caches_after_refresh_witness :
    (completeTask propsUser42 remoteHealthy "t1" worldLoaded).2.state.tasks
      = .arr [.obj [("id", .str "t2"), ("text", .str "Walk dog")]] ∧
    (completeTask propsUser42 remoteHealthy "t1" worldLoaded).2.state.profile
      = .obj [("level", .num (.int 3)), ("totalXP", .num (.int 160))] :=
  have h := completeTask_caches_after_refresh propsUser42 remoteHealthy "t1" worldLoaded
    (.obj [("xp_earned", .num (.int 10))]) rfl
  ⟨h.1 (.obj [("tasks", .arr [.obj [("id", .str "t2"), ("text", .str "Walk dog")]])]) rfl rfl,
   h.2.2.1 (.obj [("level", .num (.int 3)), ("totalXP", .num (.int 160))]) rfl⟩

/-- C7 as stated fails: when the `PUT` succeeds and both refreshes fail,
`completeTask` still resolves, and both caches hold what they held before the
call. -/
theorem completeTask_stale_caches_counterexample :
    (completeTask propsUser42 remoteGetFails "t1" worldLoaded).1
      = .ok (.obj [("xp_earned", .num (.int 10))]) ∧
    remoteGetFails [completeRequest propsUser42 "t1"] (tasksRequest propsUser42)
      = .fail networkError ∧
    remoteGetFails [completeRequest propsUser42 "t1", tasksRequest propsUser42]
      (profileRequest propsUser42) = .fail networkError ∧
    (completeTask propsUser42 remoteGetFails "t1" worldLoaded).2.state.tasks
      = worldLoaded.state.tasks ∧
    (completeTask propsUser42 remoteGetFails "t1" worldLoaded).2.state.profile
      = worldLoaded.state.profile :=
  ⟨rfl, rfl, rfl, rfl, rfl⟩


/-- C8 (amended): with `userId` set (truthy) and the mutation request succeeding
with a body that is not `null` or `undefined`, `completeTask` issues exactly
three requests, each started after the previous one has settled:
`PUT /tasks/{id}/complete`, `GET /tasks`, `GET /profile`; it resolves with the
profile fetch settled. `deleteTask` does the same with `DELETE /tasks/{id}` first. -/
theorem mutation_then_refreshes_in_order (p : TasksProps) (remote : Remote) (taskId : String)
    (w : World) (h : p.userId.truthy = true) :
    (∀ data, remote (issued w.net) (completeRequest p taskId) = .ok data →
      data.isNullish = false →
      (completeTask p remote taskId w).1 = .ok (data.getField "gamification") ∧
      (completeTask p remote taskId w).2.net =
        w.net ++
          [.started (completeRequest p taskId),
           .settled (completeRequest p taskId) (.ok data),
           .started (tasksRequest p),
           .settled (tasksRequest p)
             (remote (issued w.net ++ [completeRequest p taskId]) (tasksRequest p)),
           .started (profileRequest p),
           .settled (profileRequest p)
             (remote (issued w.net ++ [completeRequest p taskId, tasksRequest p])
               (profileRequest p))]) ∧
    (∀ data, remote (issued w.net) (deleteRequest p taskId) = .ok data →
      data.isNullish = false →
      (deleteTask p remote taskId w).1 = .ok (data.getField "gamification") ∧
      (deleteTask p remote taskId w).2.net =
        w.net ++
          [.started (deleteRequest p taskId),
           .settled (deleteRequest p taskId) (.ok data),
           .started (tasksRequest p),
           .settled (tasksRequest p)
             (remote (issued w.net ++ [deleteRequest p taskId]) (tasksRequest p)),
           .started (profileRequest p),
           .settled (profileRequest p)
             (remote (issued w.net ++ [deleteRequest p taskId, tasksRequest p])
               (profileRequest p))]) := by
  refine ⟨fun data hr hd => ?_, fun data hr hd => ?_⟩
  · rw [completeTask_done p remote taskId w data h hr hd]
    refine ⟨rfl, ?_⟩
    have hn := net_after_refreshes p remote (completeRequest p taskId) w h
    rw [hr] at hn
    exact hn
  · rw [deleteTask_done p remote taskId w data h hr hd]
    refine ⟨rfl, ?_⟩
    have hn := net_after_refreshes p remote (deleteRequest p taskId) w h
    rw [hr] at hn
    exact hn

/-- Witness for C8: the three requests of a completion against a healthy
service, in order. -/
theorem mutation_then_refreshes_in_order_witness :
    issued (completeTask propsUser42 remoteHealthy "t1" worldLoaded).2.net =
      [completeRequest propsUser42 "t1", tasksRequest propsUser42, profileRequest propsUser42] := by
  have h := ((mutation_then_refreshes_in_order propsUser42 remoteHealthy "t1" worldLoaded rfl).1
    (.obj [("gamification", .obj [("xp_earned", .num (.int 10))])]) rfl rfl).2
  rw [h]
  rfl

/-- C8 as stated fails: when the `PUT` (or `DELETE`) succeeds with the body
`null`, reading `gamification` throws, so the operation issues that one request
only and rejects. -/
theorem mutation_null_body_counterexample :
    remoteNullBody (issued worldLoaded.net) (completeRequest propsUser42 "t1") = .ok .null ∧
    issued (completeTask propsUser42 remoteNullBody "t1" worldLoaded).2.net
      = [completeRequest propsUser42 "t1"] ∧
    (completeTask propsUser42 remoteNullBody "t1" worldLoaded).1
      = .error (propertyReadError .null "gamification") ∧
    issued (deleteTask propsUser42 remoteNullBody "t1" worldLoaded).2.net
      = [deleteRequest propsUser42 "t1"] ∧
    (deleteTask propsUser42 remoteNullBody "t1" worldLoaded).1
      = .error (propertyReadError .null "gamification") :=
  ⟨rfl, rfl, rfl, rfl, rfl⟩

/-- C9: with `userId` set, whatever the service answers to the follow-up
refreshes, `completeTask` resolves with exactly the `gamification` of the `PUT`
response, `deleteTask` with exactly the `gamification` of the `DELETE` response,
and `createTask` with exactly the `task` of the `POST` response; and a value
they resolve with is never anything else. -/
theorem mutations_return_server_payload (p : TasksProps) (remote : Remote) (w : World)
    (h : p.userId.truthy = true) :
    (∀ taskId data, remote (issued w.net) (completeRequest p taskId) = .ok data →
      data.isNullish = false →
      (completeTask p remote taskId w).1 = .ok (data.getField "gamification")) ∧
    (∀ taskId v, (completeTask p remote taskId w).1 = .ok v →
      ∃ data, remote (issued w.net) (completeRequest p taskId) = .ok data ∧
        v = data.getField "gamification") ∧
    (∀ taskId data, remote (issued w.net) (deleteRequest p taskId) = .ok data →
      data.isNullish = false →
      (deleteTask p remote taskId w).1 = .ok (data.getField "gamification")) ∧
    (∀ taskId v, (deleteTask p remote taskId w).1 = .ok v →
      ∃ data, remote (issued w.net) (deleteRequest p taskId) = .ok data ∧
        v = data.getField "gamification") ∧
    (∀ taskData data, remote (issued w.net) (createRequest p taskData) = .ok data →
      data.isNullish = false →
      (createTask p remote taskData w).1 = .ok (data.getField "task")) ∧
    (∀ taskData v, (createTask p remote taskData w).1 = .ok v →
      ∃ data, remote (issued w.net) (createRequest p taskData) = .ok data ∧
        v = data.getField "task") := by
  refine ⟨fun taskId data hr hd => ?_, fun taskId v hres => ?_, fun taskId data hr hd => ?_,
    fun taskId v hres => ?_, fun taskData data hr hd => ?_, fun taskData v hres => ?_⟩
  · rw [completeTask_done p remote taskId w data h hr hd]
  · cases hr : remote (issued w.net) (completeRequest p taskId) with
    | fail e => simp [completeTask_rejected p remote taskId w e h hr] at hres
    | ok data =>
      cases hd : data.isNullish with
      | true => simp [completeTask_unreadable p remote taskId w data h hr hd] at hres
      | false =>
        rw [completeTask_done p remote taskId w data h hr hd] at hres
        exact ⟨data, rfl, (Except.ok.inj hres).symm⟩
  · rw [deleteTask_done p remote taskId w data h hr hd]
  · cases hr : remote (issued w.net) (deleteRequest p taskId) with
    | fail e => simp [deleteTask_rejected p remote taskId w e h hr] at hres
    | ok data =>
      cases hd : data.isNullish with
      | true => simp [deleteTask_unreadable p remote taskId w data h hr hd] at hres
      | false =>
        rw [deleteTask_done p remote taskId w data h hr hd] at hres
        exact ⟨data, rfl, (Except.ok.inj hres).symm⟩
  · rw [createTask_posted p remote taskData w data h hr]
    simp [JsVal.get, hd]
  · cases hr : remote (issued w.net) (createRequest p taskData) with
    | fail e => simp [createTask_rejected p remote taskData w e h hr] at hres
    | ok data =>
      rw [createTask_posted p remote taskData w data h hr] at hres
      cases hd : data.isNullish with
      | true => simp [JsVal.get, hd] at hres
      | false =>
        refine ⟨data, rfl, ?_⟩
        simpa [JsVal.get, hd] using hres.symm

/-- Witness for C9: the payload of the `DELETE` response comes back unchanged
although both refreshes fail. -/
theorem mutations_return_server_payload_witness :
    (deleteTask propsUser42 remoteGetFails "t1" worldLoaded).1
      = .ok (.obj [("xp_earned", .num (.int 10))]) :=
  (mutations_return_server_payload propsUser42 remoteGetFails worldLoaded rfl).2.2.1 "t1"
    (.obj [("gamification", .obj [("xp_earned", .num (.int 10))])]) rfl rfl

/-- C10: with `userId` set, if the mutation request of `createTask`,
`completeTask` or `deleteTask` fails with error `e`, the operation rejects with
`e`, that request is the only one issued (no refresh, no retry), and the hook
state (tasks, profile, loading, error) is as before the call. -/
theorem mutation_failure_propagates (p : TasksProps) (remote : Remote) (w : World) (e : JsError)
    (h : p.userId.truthy = true) :
    (∀ taskData, remote (issued w.net) (createRequest p taskData) = .fail e →
      createTask p remote taskData w =
        (.error e, { state := w.state,
                     net := w.net ++ [.started (createRequest p taskData),
                                      .settled (createRequest p taskData) (.fail e)] })) ∧
    (∀ taskId, remote (issued w.net) (completeRequest p taskId) = .fail e →
      completeTask p remote taskId w =
        (.error e, { state := w.state,
                     net := w.net ++ [.started (completeRequest p taskId),
                                      .settled (completeRequest p taskId) (.fail e)] })) ∧
    (∀ taskId, remote (issued w.net) (deleteRequest p taskId) = .fail e →
      deleteTask p remote taskId w =
        (.error e, { state := w.state,
                     net := w.net ++ [.started (deleteRequest p taskId),
                                      .settled (deleteRequest p taskId) (.fail e)] })) :=
  ⟨fun taskData hr => createTask_rejected p remote taskData w e h hr,
   fun taskId hr => completeTask_rejected p remote taskId w e h hr,
   fun taskId hr => deleteTask_rejected p remote taskId w e h hr⟩

/-- Witness for C10: against a service that is down, `createTask` rejects with
the network error after its single request and changes nothing. -/
theorem mutation_failure_propagates_witness :
    createTask propsUser42 remoteDown (.obj [("text", .str "Walk dog")]) worldLoaded =
      (.error networkError,
       { state := worldLoaded.state,
         net := worldLoaded.net ++
           [.started (createRequest propsUser42 (.obj [("text", .str "Walk dog")])),
            .settled (createRequest propsUser42 (.obj [("text", .str "Walk dog")]))
              (.fail networkError)] }) :=
  (mutation_failure_propagates propsUser42 remoteDown worldLoaded networkError rfl).1
    (.obj [("text", .str "Walk dog")]) rfl


/-! ## Claims on `fetchTasks`, `fetchProfile` and `getApi` -/

/-- C11: with `userId` set, when the `GET /tasks` of `fetchTasks` fails, by a
failed request with error `e` or by a response whose body cannot be read
(`null` or `undefined`), `fetchTasks` resolves (it does not reject), the error
flag is the message of the failure, the tasks cache is as before the call and
`loading` ends false. -/
theorem fetchTasks_failure_sets_error (p : TasksProps) (remote : Remote) (w : World)
    (h : p.userId.truthy = true) :
    (∀ e, remote (issued w.net) (tasksRequest p) = .fail e →
      (fetchTasks p remote w).1 = .ok .undefined ∧
      (fetchTasks p remote w).2.state.error = .str e.message ∧
      (fetchTasks p remote w).2.state.tasks = w.state.tasks ∧
      (fetchTasks p remote w).2.state.loading = false) ∧
    (∀ data, remote (issued w.net) (tasksRequest p) = .ok data → data.isNullish = true →
      (fetchTasks p remote w).1 = .ok .undefined ∧
      (fetchTasks p remote w).2.state.error = .str (propertyReadError data "tasks").message ∧
      (fetchTasks p remote w).2.state.tasks = w.state.tasks ∧
      (fetchTasks p remote w).2.state.loading = false) := by
  refine ⟨fun e he => ?_, fun data hr hd => ?_⟩
  · rw [fetchTasks_fail p remote w e h he]
    exact ⟨rfl, rfl, rfl, rfl⟩
  · rw [fetchTasks_unreadable p remote w data h hr hd]
    exact ⟨rfl, rfl, rfl, rfl⟩

/-- Witness for C11: a service that is down leaves the cached task in place and
sets the error flag to 'Network Error'. -/
theorem fetchTasks_failure_sets_error_witness :
    (fetchTasks propsUser42 remoteDown worldLoaded).1 = .ok .undefined ∧
    (fetchTasks propsUser42 remoteDown worldLoaded).2.state.error = .str "Network Error" ∧
    (fetchTasks propsUser42 remoteDown worldLoaded).2.state.tasks = worldLoaded.state.tasks ∧
    (fetchTasks propsUser42 remoteDown worldLoaded).2.state.loading = false :=
  (fetchTasks_failure_sets_error propsUser42 remoteDown worldLoaded rfl).1 networkError rfl

/-- C12: with `userId` set, when the `GET /tasks` of `fetchTasks` succeeds with a
readable body, the tasks cache becomes exactly the `tasks` array of the response
whatever the cache held before, the empty list when the body has no `tasks`
field, and the error flag becomes null. -/
theorem fetchTasks_success_replaces_cache (p : TasksProps) (remote : Remote) (w : World)
    (data : JsVal) (h : p.userId.truthy = true)
    (hr : remote (issued w.net) (tasksRequest p) = .ok data) (hd : data.isNullish = false) :
    (∀ xs, data.getField "tasks" = .arr xs → (fetchTasks p remote w).2.state.tasks = .arr xs) ∧
    (data.getField "tasks" = .undefined → (fetchTasks p remote w).2.state.tasks = .arr []) ∧
    (fetchTasks p remote w).2.state.error = .null ∧
    (fetchTasks p remote w).2.state.loading = false ∧
    (fetchTasks p remote w).1 = .ok .undefined := by
  rw [fetchTasks_ok p remote w data h hr hd]
  refine ⟨fun xs hx => ?_, fun hx => ?_, rfl, rfl, rfl⟩
  · simp [hx, JsVal.orElse, JsVal.truthy]
  · simp [hx, JsVal.orElse, JsVal.truthy]

/-- Witness for C12: the one cached task is replaced by the one task of the
response. -/
theorem fetchTasks_success_replaces_cache_witness :
    (fetchTasks propsUser42 remoteHealthy worldLoaded).2.state.tasks
      = .arr [.obj [("id", .str "t2"), ("text", .str "Walk dog")]] :=
  (fetchTasks_success_replaces_cache propsUser42 remoteHealthy worldLoaded
    (.obj [("tasks", .arr [.obj [("id", .str "t2"), ("text", .str "Walk dog")]])])
    rfl rfl rfl).1 _ rfl

/-- C13: when `userId` is unset (null, or any other falsy value), `fetchTasks`
and `fetchProfile` resolve at once: no request is issued and tasks, profile,
loading and error are all as before. -/
theorem fetches_without_identity_do_nothing (p : TasksProps) (remote : Remote) (w : World)
    (h : p.userId.truthy = false) :
    fetchTasks p remote w = (.ok .undefined, w) ∧
    fetchProfile p remote w = (.ok .undefined, w) := by
  constructor
  · simp [fetchTasks, h]
  · simp [fetchProfile, h]

/-- Witness for C13: with `userId` null nothing happens. -/
theorem fetches_without_identity_do_nothing_witness :
    fetchTasks { userId := .null, authToken := .null } remoteHealthy worldLoaded
      = (.ok .undefined, worldLoaded) ∧
    fetchProfile { userId := .null, authToken := .null } remoteHealthy worldLoaded
      = (.ok .undefined, worldLoaded) :=
  fetches_without_identity_do_nothing { userId := .null, authToken := .null } remoteHealthy
    worldLoaded rfl

/-- C14: with `userId` set, when the `GET /profile` of `fetchProfile` fails,
`fetchProfile` resolves and the whole hook state (profile, tasks, error,
loading) is as before; when it succeeds the profile cache is exactly the
response body and the rest of the state is as before. -/
theorem fetchProfile_outcomes (p : TasksProps) (remote : Remote) (w : World)
    (h : p.userId.truthy = true) :
    (∀ e, remote (issued w.net) (profileRequest p) = .fail e →
      (fetchProfile p remote w).1 = .ok .undefined ∧
      (fetchProfile p remote w).2.state = w.state) ∧
    (∀ data, remote (issued w.net) (profileRequest p) = .ok data →
      (fetchProfile p remote w).1 = .ok .undefined ∧
      (fetchProfile p remote w).2.state = { w.state with profile := data }) := by
  refine ⟨fun e he => ?_, fun data hr => ?_⟩
  · rw [fetchProfile_fail p remote w e h he]
    exact ⟨rfl, rfl⟩
  · rw [fetchProfile_ok p remote w data h hr]
    exact ⟨rfl, rfl⟩

/-- Witness for C14: a service that is down leaves the cached profile and the
error flag untouched. -/
theorem fetchProfile_outcomes_witness :
    (fetchProfile propsUser42 remoteDown worldLoaded).1 = .ok .undefined ∧
    (fetchProfile propsUser42 remoteDown worldLoaded).2.state = worldLoaded.state :=
  (fetchProfile_outcomes propsUser42 remoteDown worldLoaded rfl).1 networkError rfl

theorem apiRequest_carriesIdentity (p : TasksProps) (m : Method) (url : String) (body : JsVal) :
    carriesIdentity p (apiRequest p m url body) := by
  refine ⟨rfl, fun h => ?_, fun h => ?_⟩ <;> simp [apiRequest, JsVal.orElse, h]

/-- Requests issued after `send`: the earlier ones and the one sent. -/
theorem mem_issued_send (remote : Remote) (req r : Request) (w : World)
    (h : r ∈ issued (send remote req w).2.net) : r ∈ issued w.net ∨ r = req := by
  rw [issued_send] at h
  simpa using h

theorem mem_issued_fetchTasks (p : TasksProps) (remote : Remote) (w : World) (r : Request)
    (h : r ∈ issued (fetchTasks p remote w).2.net) : r ∈ issued w.net ∨ carriesIdentity p r := by
  cases ht : p.userId.truthy with
  | false => rw [fetchTasks_unset p remote w ht] at h; exact Or.inl h
  | true =>
    rw [(fetchTasks_frame p remote w ht).2.1, issued_append] at h
    rcases List.mem_append.1 h with h | h
    · exact Or.inl h
    · right
      have : r = apiRequest p .get "/tasks" .undefined := by simpa [issued] using h
      rw [this]
      exact apiRequest_carriesIdentity _ _ _ _

theorem mem_issued_fetchProfile (p : TasksProps) (remote : Remote) (w : World) (r : Request)
    (h : r ∈ issued (fetchProfile p remote w).2.net) : r ∈ issued w.net ∨ carriesIdentity p r := by
  cases ht : p.userId.truthy with
  | false =>
    have e : fetchProfile p remote w = (.ok .undefined, w) := by simp [fetchProfile, ht]
    rw [e] at h
    exact Or.inl h
  | true =>
    rw [(fetchProfile_frame p remote w ht).2.1, issued_append] at h
    rcases List.mem_append.1 h with h | h
    · exact Or.inl h
    · right
      have : r = apiRequest p .get "/profile" .undefined := by simpa [issued] using h
      rw [this]
      exact apiRequest_carriesIdentity _ _ _ _

/-- Requests issued after a mutation request and the two refreshes. -/
theorem mem_issued_refreshes (p : TasksProps) (remote : Remote) (w : World) (m : Method)
    (url : String) (body : JsVal) (r : Request)
    (h : r ∈ issued (fetchProfile p remote (fetchTasks p remote
      (send remote (apiRequest p m url body) w).2).2).2.net) :
    r ∈ issued w.net ∨ carriesIdentity p r := by
  rcases mem_issued_fetchProfile p remote _ r h with h | h
  · rcases mem_issued_fetchTasks p remote _ r h with h | h
    · rcases mem_issued_send remote _ r w h with h | h
      · exact Or.inl h
      · exact Or.inr (h ▸ apiRequest_carriesIdentity _ _ _ _)
    · exact Or.inr h
  · exact Or.inr h

/-- C15: every request that `fetchTasks`, `fetchProfile`, `createTask`,
`completeTask`, `deleteTask` or the initial load effect issues carries the query parameter `userId` equal
to the hook's `userId` and the header `X-Telegram-Init-Data` equal to the hook's
`authToken`, or to the empty string when `authToken` is null or empty. -/
theorem requests_carry_identity (p : TasksProps) (remote : Remote) (w : World) :
    (∀ r ∈ issued (fetchTasks p remote w).2.net, r ∈ issued w.net ∨ carriesIdentity p r) ∧
    (∀ r ∈ issued (fetchProfile p remote w).2.net, r ∈ issued w.net ∨ carriesIdentity p r) ∧
    (∀ taskData, ∀ r ∈ issued (createTask p remote taskData w).2.net,
      r ∈ issued w.net ∨ carriesIdentity p r) ∧
    (∀ taskId, ∀ r ∈ issued (completeTask p remote taskId w).2.net,
      r ∈ issued w.net ∨ carriesIdentity p r) ∧
    (∀ taskId, ∀ r ∈ issued (deleteTask p remote taskId w).2.net,
      r ∈ issued w.net ∨ carriesIdentity p r) ∧
    (∀ r ∈ issued (loadEffect p w).net, r ∈ issued w.net ∨ carriesIdentity p r) := by
  refine ⟨fun r h => mem_issued_fetchTasks p remote w r h,
    fun r h => mem_issued_fetchProfile p remote w r h,
    fun taskData r h => ?_, fun taskId r h => ?_, fun taskId r h => ?_, fun r h => ?_⟩
  · cases ht : p.userId.truthy with
    | false =>
      have e : createTask p remote taskData w =
          (.error (JsError.ofMessage "Not authenticated"), w) := by simp [createTask, ht]
      rw [e] at h
      exact Or.inl h
    | true =>
      cases hr : remote (issued w.net) (apiRequest p .post "/tasks" taskData) with
      | fail e =>
        rw [createTask_rejected p remote taskData w e ht hr] at h
        have h2 : r ∈ issued (send remote (apiRequest p .post "/tasks" taskData) w).2.net := by
          rw [send_snd, hr]; exact h
        rcases mem_issued_send remote _ r w h2 with h3 | h3
        · exact Or.inl h3
        · exact Or.inr (h3 ▸ apiRequest_carriesIdentity _ _ _ _)
      | ok data =>
        rw [createTask_posted p remote taskData w data ht hr] at h
        rcases mem_issued_fetchTasks p remote _ r h with h | h
        · rcases mem_issued_send remote _ r w h with h | h
          · exact Or.inl h
          · exact Or.inr (h ▸ apiRequest_carriesIdentity _ _ _ _)
        · exact Or.inr h
  · cases ht : p.userId.truthy with
    | false =>
      have e : completeTask p remote taskId w =
          (.error (JsError.ofMessage "Not authenticated"), w) := by simp [completeTask, ht]
      rw [e] at h
      exact Or.inl h
    | true =>
      cases hr : remote (issued w.net)
          (apiRequest p .put ("/tasks/" ++ taskId ++ "/complete") .undefined) with
      | fail e =>
        rw [completeTask_rejected p remote taskId w e ht hr] at h
        have h2 : r ∈ issued (send remote
            (apiRequest p .put ("/tasks/" ++ taskId ++ "/complete") .undefined) w).2.net := by
          rw [send_snd, hr]; exact h
        rcases mem_issued_send remote _ r w h2 with h3 | h3
        · exact Or.inl h3
        · exact Or.inr (h3 ▸ apiRequest_carriesIdentity _ _ _ _)
      | ok data =>
        cases hd : data.isNullish with
        | true =>
          rw [completeTask_unreadable p remote taskId w data ht hr hd] at h
          rcases mem_issued_send remote _ r w h with h3 | h3
          · exact Or.inl h3
          · exact Or.inr (h3 ▸ apiRequest_carriesIdentity _ _ _ _)
        | false =>
          rw [completeTask_done p remote taskId w data ht hr hd] at h
          exact mem_issued_refreshes p remote w _ _ _ r h
  · cases ht : p.userId.truthy with
    | false =>
      have e : deleteTask p remote taskId w =
          (.error (JsError.ofMessage "Not authenticated"), w) := by simp [deleteTask, ht]
      rw [e] at h
      exact Or.inl h
    | true =>
      cases hr : remote (issued w.net) (apiRequest p .delete ("/tasks/" ++ taskId) .undefined) with
      | fail e =>
        rw [deleteTask_rejected p remote taskId w e ht hr] at h
        have h2 : r ∈ issued (send remote
            (apiRequest p .delete ("/tasks/" ++ taskId) .undefined) w).2.net := by
          rw [send_snd, hr]; exact h
        rcases mem_issued_send remote _ r w h2 with h3 | h3
        · exact Or.inl h3
        · exact Or.inr (h3 ▸ apiRequest_carriesIdentity _ _ _ _)
      | ok data =>
        cases hd : data.isNullish with
        | true =>
          rw [deleteTask_unreadable p remote taskId w data ht hr hd] at h
          rcases mem_issued_send remote _ r w h with h3 | h3
          · exact Or.inl h3
          · exact Or.inr (h3 ▸ apiRequest_carriesIdentity _ _ _ _)
        | false =>
          rw [deleteTask_done p remote taskId w data ht hr hd] at h
          exact mem_issued_refreshes p remote w _ _ _ r h

  · unfold loadEffect at h
    split at h
    · rw [issued_append] at h
      rcases List.mem_append.1 h with h | h
      · exact Or.inl h
      · right
        have hr : r = apiRequest p .get "/tasks" .undefined ∨
            r = apiRequest p .get "/profile" .undefined := by simpa [issued] using h
        rcases hr with rfl | rfl <;> exact apiRequest_carriesIdentity _ _ _ _
    · exact Or.inl h

/-- Witness for C15: with `authToken` null the request of `fetchTasks` carries
the empty header and the hook's `userId`. -/
theorem requests_carry_identity_witness :
    carriesIdentity { userId := .num (.int 42), authToken := .null }
      (tasksRequest { userId := .num (.int 42), authToken := .null }) ∧
    (tasksRequest { userId := .num (.int 42), authToken := .null }).initDataHeader = .str "" := by
  have h := (requests_carry_identity { userId := .num (.int 42), authToken := .null }
    remoteHealthy worldFresh).1 (tasksRequest { userId := .num (.int 42), authToken := .null })
    (List.mem_singleton.2 rfl)
  rcases h with h | h
  · exact absurd h (List.not_mem_nil _)
  · exact ⟨h, h.2.2 rfl⟩

/-! ## Claims on the bootstrap effect -/

theorem loadEffect_initialized (p : TasksProps) (w : World) (h : w.state.initialized = true) :
    loadEffect p w = w := by
  simp [loadEffect, h]

theorem loadEffect_unset (p : TasksProps) (w : World) (h : p.userId.truthy = false) :
    loadEffect p w = w := by
  simp [loadEffect, h]

theorem afterRenders_initialized (ps : List TasksProps) (w : World)
    (h : w.state.initialized = true) : afterRenders ps w = w := by
  induction ps with
  | nil => rfl
  | cons p ps ih => rw [afterRenders, loadEffect_initialized p w h, ih]

theorem afterRenders_unset (ps : List TasksProps) (w : World)
    (h : ∀ q ∈ ps, q.userId.truthy = false) : afterRenders ps w = w := by
  induction ps with
  | nil => rfl
  | cons p ps ih =>
    rw [afterRenders, loadEffect_unset p w (h p (List.mem_cons_self _ _))]
    exact ih (fun q hq => h q (List.mem_cons_of_mem _ hq))

theorem afterRenders_append (ps qs : List TasksProps) (w : World) :
    afterRenders (ps ++ qs) w = afterRenders qs (afterRenders ps w) := by
  induction ps generalizing w with
  | nil => rfl
  | cons p ps ih => simp [afterRenders, ih]

/-- C16 (amended): over every sequence of renders of a hook that is not yet
initialized, the load effect does nothing while `userId` is falsy (null, but
also 0 or `NaN`); at the first render with a truthy `userId` it starts one
`GET /tasks` and one `GET /profile` and marks the hook initialized; and no
later render, with the same or another `userId`, starts anything more. -/
theorem bootstrap_runs_once (pre post : List TasksProps) (p : TasksProps) (w : World)
    (hw : w.state.initialized = false) (hpre : ∀ q ∈ pre, q.userId.truthy = false)
    (hp : p.userId.truthy = true) :
    afterRenders pre w = w ∧
    afterRenders (pre ++ [p]) w =
      { state := { w.state with loading := true, initialized := true },
        net := w.net ++ [.started (tasksRequest p), .started (profileRequest p)] } ∧
    afterRenders (pre ++ p :: post) w = afterRenders (pre ++ [p]) w := by
  have h1 : afterRenders pre w = w := afterRenders_unset pre w hpre
  have h2 : loadEffect p w =
      { state := { w.state with loading := true, initialized := true },
        net := w.net ++ [.started (tasksRequest p), .started (profileRequest p)] } := by
    simp [loadEffect, hp, hw]
  refine ⟨h1, ?_, ?_⟩
  · rw [afterRenders_append, h1]
    simp [afterRenders, h2]
  · rw [afterRenders_append, afterRenders_append, h1]
    simp only [afterRenders]
    rw [h2]
    exact afterRenders_initialized post _ rfl

/-- Witness for C16: one render without identity, then three renders as user 42:
exactly the two bootstrap requests are started. -/
theorem bootstrap_runs_once_witness :
    issued (afterRenders [propsUnresolved, propsUser42, propsUser42, propsUser42] worldFresh).net
      = [tasksRequest propsUser42, profileRequest propsUser42] ∧
    (afterRenders [propsUnresolved, propsUser42, propsUser42, propsUser42]
      worldFresh).state.initialized = true := by
  have h := bootstrap_runs_once [propsUnresolved] [propsUser42, propsUser42] propsUser42
    worldFresh rfl (by intro q hq; rw [List.mem_singleton.1 hq]; rfl) rfl
  have e : afterRenders [propsUnresolved, propsUser42, propsUser42, propsUser42] worldFresh =
      afterRenders ([propsUnresolved] ++ [propsUser42]) worldFresh := h.2.2
  rw [e, h.2.1]
  exact ⟨rfl, rfl⟩

/-- C16 as stated fails: with the `userId` 0 (what `?userId=0` resolves to), which
is not null, the load effect starts no request and does not mark the hook
initialized. -/
theorem bootstrap_zero_userId_counterexample :
    propsUserZero.userId ≠ .null ∧
    afterRenders [propsUserZero, propsUserZero] worldFresh = worldFresh ∧
    issued (afterRenders [propsUserZero, propsUserZero] worldFresh).net = [] ∧
    (afterRenders [propsUserZero, propsUserZero] worldFresh).state.initialized = false :=
  ⟨by simp [propsUserZero], rfl, rfl, rfl⟩


/-! ## Claims on the task board -/

theorem numberOf_small (n : Nat) (h : n ≤ 2 ^ 53) : numberOf false n = .int n := by
  by_cases h0 : n = 0
  · subst h0; rfl
  · rw [numberOf_exact false n h0 h]; rfl

/-- C17: for every natural number `n` and every value of the clock, a task whose
`remindAt` is the decimal string of `n` and a task whose `remindAt` is the number
`n` get the same bucket from `categorizeTask`; the number `n` is the double
nearest to `n`, which is `n` itself up to `2 ^ 53`. -/
theorem remindAt_string_or_number_same_bucket (n : Nat) (nowMs : Int) (id text status : JsVal) :
    categorizeTask nowMs
        { id := id, text := text, status := status,
          remindAt := .str (decimalLiteral (Int.ofNat n)) } =
      categorizeTask nowMs
        { id := id, text := text, status := status, remindAt := .num (numberOf false n) } ∧
    (n ≤ 2 ^ 53 → numberOf false n = .int n) := by
  refine ⟨?_, numberOf_small n⟩
  have ht : parseInt (decimalLiteral (Int.ofNat n)) = numberOf false n :=
    parseIntChars_toDigits n
  simp only [categorizeTask, taskTimestamp, ht]

/-- Witness for C17: `"1700000000"` and `1700000000` give the same bucket. -/
theorem remindAt_string_or_number_same_bucket_witness :
    categorizeTask 1699999000000
        { id := .str "a", text := .str "x", status := .null, remindAt := .str "1700000000" } =
      categorizeTask 1699999000000
        { id := .str "a", text := .str "x", status := .null,
          remindAt := .num (.int 1700000000) } :=
  (remindAt_string_or_number_same_bucket 1700000000 1699999000000 (.str "a") (.str "x")
    .null).1

theorem distribute_columns (clock : Nat → Int) (ts : List Task) :
    ∀ (k : Nat) (a b c d : List Task),
    distribute clock k ts
      [ { id := .today, title := "Today", tasks := a },
        { id := .tomorrow, title := "Tomorrow", tasks := b },
        { id := .week, title := "This Week", tasks := c },
        { id := .later, title := "Later", tasks := d } ] =
      [ { id := .today, title := "Today", tasks := a ++ assignedTo clock .today k ts },
        { id := .tomorrow, title := "Tomorrow", tasks := b ++ assignedTo clock .tomorrow k ts },
        { id := .week, title := "This Week", tasks := c ++ assignedTo clock .week k ts },
        { id := .later, title := "Later", tasks := d ++ assignedTo clock .later k ts } ] := by
  induction ts with
  | nil => intro k a b c d; simp [distribute, assignedTo]
  | cons t ts ih =>
    intro k a b c d
    cases hc : categorizeTask (clock k) t <;>
      simp [distribute, assignedTo, pushTask, hc, ih]

theorem assignedTo_eq_filter (clock : Nat → Int) (bucket : Bucket) (ts : List Task) :
    ∀ k, assignedTo clock bucket k ts =
      ((ts.enumFrom k).filter
        (fun it => decide (categorizeTask (clock it.1) it.2 = bucket))).map Prod.snd := by
  induction ts with
  | nil => intro k; rfl
  | cons t ts ih =>
    intro k
    by_cases hc : categorizeTask (clock k) t = bucket
    · simp [assignedTo, List.enumFrom, List.filter, hc, ih]
    · simp [assignedTo, List.enumFrom, List.filter, hc, ih]

theorem assignedTo_sublist (clock : Nat → Int) (bucket : Bucket) (ts : List Task) :
    ∀ k, List.Sublist (assignedTo clock bucket k ts) ts := by
  induction ts with
  | nil => intro k; exact List.Sublist.slnil
  | cons t ts ih =>
    intro k
    simp only [assignedTo]
    split
    · exact (ih (k + 1)).cons₂ t
    · exact (ih (k + 1)).cons t

theorem assignedTo_lengths (clock : Nat → Int) (ts : List Task) :
    ∀ k, (assignedTo clock .today k ts).length + (assignedTo clock .tomorrow k ts).length +
      (assignedTo clock .week k ts).length + (assignedTo clock .later k ts).length = ts.length := by
  induction ts with
  | nil => intro k; rfl
  | cons t ts ih =>
    intro k
    have := ih (k + 1)
    cases hc : categorizeTask (clock k) t <;> simp [assignedTo, hc] <;> omega

theorem assignedTo_const (now : Int) (bucket : Bucket) (ts : List Task) :
    ∀ k, assignedTo (fun _ => now) bucket k ts =
      ts.filter (fun t => decide (categorizeTask now t = bucket)) := by
  induction ts with
  | nil => intro k; rfl
  | cons t ts ih =>
    intro k
    by_cases hc : categorizeTask now t = bucket
    · simp [assignedTo, List.filter, hc, ih]
    · simp [assignedTo, List.filter, hc, ih]


theorem taskBoard_eq (clock : Nat → Int) (tasks : List Task) :
    taskBoard clock tasks =
      [ { id := .today, title := "Today",
          tasks := assignedTo clock .today 0 (pendingTasks tasks) },
        { id := .tomorrow, title := "Tomorrow",
          tasks := assignedTo clock .tomorrow 0 (pendingTasks tasks) },
        { id := .week, title := "This Week",
          tasks := assignedTo clock .week 0 (pendingTasks tasks) },
        { id := .later, title := "Later",
          tasks := assignedTo clock .later 0 (pendingTasks tasks) } ] := by
  have h := distribute_columns clock (pendingTasks tasks) 0 [] [] [] []
  simpa [taskBoard, emptyColumns] using h

theorem mem_taskBoard (clock : Nat → Int) (tasks : List Task) (c : Column)
    (h : c ∈ taskBoard clock tasks) :
    c.tasks = assignedTo clock c.id 0 (pendingTasks tasks) := by
  rw [taskBoard_eq] at h
  simp only [List.mem_cons, List.mem_singleton, List.not_mem_nil, or_false] at h
  rcases h with rfl | rfl | rfl | rfl <;> rfl

theorem pendingTasks_not_done (tasks : List Task) (t : Task) (h : t ∈ pendingTasks tasks) :
    t.status ≠ .str "done" := by
  have h2 := (List.mem_filter.1 h).2
  intro hs
  simp [Task.isDone, hs] at h2

/-- C18: for every task list (and every run of the clock), the board has the four
columns today, tomorrow, week, later; a column holds exactly the tasks that are
not done and that `categorizeTask` assigns to it, in the order of the input
list; so no task with status 'done' is in any column and every other task is in
exactly one (the column sizes add up to the number of tasks not done). The
columns are computed from the list, which is not written to. -/
theorem board_columns_partition_pending (clock : Nat → Int) (tasks : List Task) :
    (taskBoard clock tasks).map (fun c => c.id) = [.today, .tomorrow, .week, .later] ∧
    (∀ c ∈ taskBoard clock tasks,
      c.tasks = (((tasks.filter (fun t => !t.isDone)).enumFrom 0).filter
        (fun it => decide (categorizeTask (clock it.1) it.2 = c.id))).map Prod.snd) ∧
    (∀ c ∈ taskBoard clock tasks, ∀ t ∈ c.tasks, t.status ≠ .str "done") ∧
    (∀ c ∈ taskBoard clock tasks, List.Sublist c.tasks tasks) ∧
    ((taskBoard clock tasks).map (fun c => c.tasks.length)).sum =
      (tasks.filter (fun t => !t.isDone)).length ∧
    (∀ now, ∀ c ∈ taskBoard (fun _ => now) tasks,
      c.tasks = (tasks.filter (fun t => !t.isDone)).filter
        (fun t => decide (categorizeTask now t = c.id))) := by
  refine ⟨?_, fun c hc => ?_, fun c hc t ht => ?_, fun c hc => ?_, ?_, fun now c hc => ?_⟩
  · rw [taskBoard_eq]; rfl
  · rw [mem_taskBoard clock tasks c hc, assignedTo_eq_filter]; rfl
  · rw [mem_taskBoard clock tasks c hc] at ht
    exact pendingTasks_not_done tasks t ((assignedTo_sublist clock c.id _ 0).subset ht)
  · rw [mem_taskBoard clock tasks c hc]
    exact (assignedTo_sublist clock c.id _ 0).trans (List.filter_sublist _)
  · rw [taskBoard_eq]
    have h := assignedTo_lengths clock (pendingTasks tasks) 0
    simp only [List.map_cons, List.map_nil, List.sum_cons, List.sum_nil]
    have hp : (tasks.filter (fun t => !t.isDone)).length = (pendingTasks tasks).length := rfl
    omega
  · rw [mem_taskBoard _ tasks c hc, assignedTo_const]; rfl

/-- Witness for C18: of three tasks, the one that is done is in no column, the
one due in 100 seconds is under today and the one due in 100000 seconds under
tomorrow. -/
theorem board_columns_partition_pending_witness :
    (taskBoard (fun _ => 1700000000000) sampleTasks).map (fun c => c.tasks.length)
      = [1, 1, 0, 0] ∧
    ((taskBoard (fun _ => 1700000000000) sampleTasks).map (fun c => c.tasks.length)).sum = 2 :=
  ⟨rfl, (board_columns_partition_pending (fun _ => 1700000000000) sampleTasks).2.2.2.2.1⟩


/-! ## Claims on the profile card -/

/-- C19 (amended): for every profile that is rendered, the displayed XP-in-level
is the server's `xpProgress` whenever that is present and truthy (a non-zero
number), and the displayed XP-for-next-level is the server's `xpForNextLevel`
whenever that is present and truthy; when `xpForNextLevel` is absent the
component displays its own constant 100, and when `xpProgress` is absent it
displays `totalXP % 100`. -/
theorem profile_xp_values (profile : JsVal) (h : profile.truthy = true) :
    ∃ card, profileCard profile = some card ∧
      ((profile.getField "xpProgress").truthy = true →
        card.xpInLevel = profile.getField "xpProgress") ∧
      ((profile.getField "xpForNextLevel").truthy = true →
        card.xpForNext = profile.getField "xpForNextLevel") ∧
      (profile.getField "xpProgress" = .undefined →
        card.xpInLevel = .num (jsRemainder card.totalXP 100)) ∧
      (profile.getField "xpForNextLevel" = .undefined →
        card.xpForNext = .num (.int 100)) ∧
      card.totalXP = (parseIntOf (profile.getField "totalXP")).orElse (.int 0) := by
  refine ⟨_, by simp only [profileCard, h, Bool.not_true, Bool.false_eq_true, if_false]; rfl,
    fun hx => ?_, fun hx => ?_, fun hx => ?_, fun hx => ?_, rfl⟩
  · simp [JsVal.orElse, hx]
  · simp [JsVal.orElse, hx]
  · simp [JsVal.orElse, hx, JsVal.truthy]
  · simp [JsVal.orElse, hx, JsVal.truthy]

/-- Witness for C19: a profile with `xpProgress` 40 and `xpForNextLevel` 150 shows
40 and 150. -/
theorem profile_xp_values_witness :
    (profileCard profileComplete).map (fun card => card.xpInLevel) = some (.num (.int 40)) ∧
    (profileCard profileComplete).map (fun card => card.xpForNext) = some (.num (.int 150)) := by
  obtain ⟨card, hc, h1, h2, -⟩ := profile_xp_values profileComplete rfl
  rw [hc]
  exact ⟨congrArg some (h1 rfl), congrArg some (h2 rfl)⟩

/-- C19 as stated fails: for a profile with `totalXP` 250 and neither `xpProgress`
nor `xpForNextLevel`, the component shows 50 (`250 % 100`) out of 100, both derived
on the client. -/
theorem profile_xp_fallback_counterexample :
    profileWithoutProgress.getField "xpProgress" = .undefined ∧
    profileWithoutProgress.getField "xpForNextLevel" = .undefined ∧
    (profileCard profileWithoutProgress).map (fun card => card.xpInLevel)
      = some (.num (.int 50)) ∧
    (profileCard profileWithoutProgress).map (fun card => card.xpForNext)
      = some (.num (.int 100)) :=
  ⟨rfl, rfl, rfl, rfl⟩

/-! ## Claims on the tag list -/

theorem handleAddTag_nodup (key : String) (f : TagForm) (h : f.tags.Nodup) :
    (handleAddTag key f).tags.Nodup := by
  unfold handleAddTag
  split
  · simp only
    split
    · exact h
    · rename_i hn
      exact List.Nodup.append h (List.nodup_singleton _) (by simpa using hn)
  · exact h

theorem handleDeleteTag_nodup (tag : String) (f : TagForm) (h : f.tags.Nodup) :
    (handleDeleteTag tag f).tags.Nodup :=
  h.filter _

theorem runTagEvents_nodup (events : List TagEvent) :
    ∀ f : TagForm, f.tags.Nodup → (runTagEvents events f).tags.Nodup := by
  induction events with
  | nil => intro f h; exact h
  | cons e es ih =>
    intro f h
    apply ih
    cases e with
    | input value => exact h
    | keyDown key => exact handleAddTag_nodup key f h
    | deleteChip tag => exact handleDeleteTag_nodup tag f h

/-- C20: starting from the empty list, after every sequence of typing, key and
delete events the tags list has no duplicate; `handleAddTag` on Enter with a
non-blank input leaves the list unchanged when the tag (the trimmed input
without its first `#`) is already in it, and otherwise appends the tag at the end
of the unchanged list; `handleDeleteTag` keeps the other tags in their order. -/
theorem tag_list_invariant :
    (∀ events, (runTagEvents events TagForm.initial).tags.Nodup) ∧
    (∀ f : TagForm, jsTrim f.tagInput ≠ "" →
      String.mk ((jsTrim f.tagInput).data.erase '#') ∈ f.tags →
      (handleAddTag "Enter" f).tags = f.tags) ∧
    (∀ f : TagForm, jsTrim f.tagInput ≠ "" →
      String.mk ((jsTrim f.tagInput).data.erase '#') ∉ f.tags →
      (handleAddTag "Enter" f).tags =
        f.tags ++ [String.mk ((jsTrim f.tagInput).data.erase '#')]) ∧
    (∀ (f : TagForm) (key : String), key ≠ "Enter" ∨ jsTrim f.tagInput = "" →
      handleAddTag key f = f) ∧
    (∀ (f : TagForm) (tag : String),
      (handleDeleteTag tag f).tags = f.tags.filter (fun t => decide (t ≠ tag)) ∧
      List.Sublist (handleDeleteTag tag f).tags f.tags ∧
      tag ∉ (handleDeleteTag tag f).tags) := by
  refine ⟨fun events => runTagEvents_nodup events _ List.nodup_nil, fun f h1 h2 => ?_,
    fun f h1 h2 => ?_, fun f key h => ?_, fun f tag => ⟨rfl, List.filter_sublist _, ?_⟩⟩
  · simp [handleAddTag, h1, h2]
  · simp [handleAddTag, h1, h2]
  · rcases h with h | h <;> simp [handleAddTag, h]
  · simp [handleDeleteTag]

/-- Witness for C20: `work` typed twice is kept once, next to `home`. -/
theorem tag_list_invariant_witness :
    (runTagEvents [.input " #work ", .keyDown "Enter", .input "work", .keyDown "Enter",
      .input "home", .keyDown "Enter"] TagForm.initial).tags = ["work", "home"] ∧
    (runTagEvents [.input " #work ", .keyDown "Enter", .input "work", .keyDown "Enter",
      .input "home", .keyDown "Enter"] TagForm.initial).tags.Nodup :=
  ⟨by decide, tag_list_invariant.1 _⟩

/-! ## Claims on busy flags, host signals and the profile cache -/

/-- C21 (amended): `fetchTasks` maintains the busy flag `loading`: it is true
from the start of the request until it settles and false once it has settled,
whether the request succeeded or failed (for a call that no other `fetchTasks`
call overlaps). `fetchProfile` maintains no flag: while its request is in flight
and after it has settled, `loading` and `initialized` are as before the call. -/
theorem busy_flag_of_fetches (p : TasksProps) (remote : Remote) (w : World)
    (h : p.userId.truthy = true) :
    (fetchTasksPending p w).net = w.net ++ [.started (tasksRequest p)] ∧
    (fetchTasksPending p w).state.loading = true ∧
    (fetchTasks p remote w).2.net =
      (fetchTasksPending p w).net ++
        [.settled (tasksRequest p) (remote (issued w.net) (tasksRequest p))] ∧
    (fetchTasks p remote w).2.state.loading = false ∧
    (fetchProfilePending p w).net = w.net ++ [.started (profileRequest p)] ∧
    (fetchProfilePending p w).state = w.state ∧
    (fetchProfile p remote w).2.net =
      (fetchProfilePending p w).net ++
        [.settled (profileRequest p) (remote (issued w.net) (profileRequest p))] ∧
    (fetchProfile p remote w).2.state.loading = w.state.loading ∧
    (fetchProfile p remote w).2.state.initialized = w.state.initialized := by
  have hf := fetchTasks_frame p remote w h
  have hg := fetchProfile_frame p remote w h
  have hl : (fetchTasks p remote w).2.state.loading = false := by
    cases hr : remote (issued w.net) (apiRequest p .get "/tasks" .undefined) with
    | fail e => rw [fetchTasks_fail p remote w e h hr]
    | ok data =>
      cases hd : data.isNullish with
      | true => rw [fetchTasks_unreadable p remote w data h hr hd]
      | false => rw [fetchTasks_ok p remote w data h hr hd]
  have hi : (fetchProfile p remote w).2.state.initialized = w.state.initialized := by
    cases hr : remote (issued w.net) (apiRequest p .get "/profile" .undefined) with
    | fail e => rw [fetchProfile_fail p remote w e h hr]
    | ok data => rw [fetchProfile_ok p remote w data h hr]
  refine ⟨?_, ?_, ?_, hl, ?_, ?_, ?_, hg.2.2.2.2, hi⟩
  · simp [fetchTasksPending, h, World.setLoading]
  · simp [fetchTasksPending, h, World.setLoading]
  · rw [hf.2.1]
    simp [fetchTasksPending, h, World.setLoading]
  · simp [fetchProfilePending, h]
  · simp [fetchProfilePending, h]
  · rw [hg.2.1]
    simp [fetchProfilePending, h]

/-- Witness for C21: `loading` is true while the request of `fetchTasks` is in
flight and false after a failure. -/
theorem busy_flag_of_fetches_witness :
    (fetchTasksPending propsUser42 worldLoaded).state.loading = true ∧
    (fetchTasks propsUser42 remoteDown worldLoaded).2.state.loading = false :=
  have h := busy_flag_of_fetches propsUser42 remoteDown worldLoaded rfl
  ⟨h.2.1, h.2.2.2.1⟩

/-- C21 as stated fails: while the request of `fetchProfile` is in flight no flag
of the hook is true; the state is the one from before the call. -/
theorem fetchProfile_no_busy_flag_counterexample :
    (fetchProfilePending propsUser42 worldLoaded).net = [.started (profileRequest propsUser42)] ∧
    (fetchProfilePending propsUser42 worldLoaded).state.loading = false ∧
    (fetchProfilePending propsUser42 worldLoaded).state = worldLoaded.state :=
  ⟨rfl, rfl, rfl⟩

/-- C22: in one run of `authenticate`, when a host object exists the calls made
on it are `ready` and then `expand`, once each, whatever the identity sources
are and so on all four outcomes; when none exists no call is made. -/
theorem host_lifecycle_signals (win : Window) (s0 : TelegramState) :
    (∀ app, win.webApp = some app → (authenticate win s0).2 = [.ready, .expand]) ∧
    (win.webApp = none → (authenticate win s0).2 = []) := by
  constructor
  · intro app happ
    unfold authenticate
    simp only [happ]
    split
    · rfl
    · split
      · rfl
      · split <;> rfl
  · intro hnone
    unfold authenticate
    simp only [hnone]
    split
    · rfl
    · split
      · rfl
      · split <;> rfl

/-- Witness for C22: the same two calls on each of the four outcomes. -/
theorem host_lifecycle_signals_witness :
    (authenticate windowAllSources TelegramState.initial).2 = [.ready, .expand] ∧
    (authenticate { webApp := some hostWithoutUser, search := [("userId", "42")],
                    hostname := "example.org" } TelegramState.initial).2 = [.ready, .expand] ∧
    (authenticate { webApp := some hostWithoutUser, search := [], hostname := "localhost" }
      TelegramState.initial).2 = [.ready, .expand] ∧
    (authenticate { webApp := some hostWithoutUser, search := [], hostname := "example.org" }
      TelegramState.initial).2 = [.ready, .expand] ∧
    (authenticate windowNoSource TelegramState.initial).2 = [] :=
  ⟨(host_lifecycle_signals windowAllSources _).1 _ rfl,
   (host_lifecycle_signals _ _).1 hostWithoutUser rfl,
   (host_lifecycle_signals _ _).1 hostWithoutUser rfl,
   (host_lifecycle_signals _ _).1 hostWithoutUser rfl,
   (host_lifecycle_signals windowNoSource _).2 rfl⟩

theorem fetchTasks_leaves_profile (p : TasksProps) (remote : Remote) (w : World) :
    (fetchTasks p remote w).2.state.profile = w.state.profile ∧
    ∀ r ∈ issued (fetchTasks p remote w).2.net, r ∈ issued w.net ∨ r.url = "/tasks" := by
  cases ht : p.userId.truthy with
  | false =>
    rw [fetchTasks_unset p remote w ht]
    exact ⟨rfl, fun r h => Or.inl h⟩
  | true =>
    have hf := fetchTasks_frame p remote w ht
    refine ⟨hf.2.2, fun r h => ?_⟩
    rw [hf.2.1, issued_append] at h
    rcases List.mem_append.1 h with h | h
    · exact Or.inl h
    · right
      have : r = apiRequest p .get "/tasks" .undefined := by simpa [issued] using h
      rw [this]
      rfl

theorem createTask_leaves_profile (p : TasksProps) (remote : Remote) (taskData : JsVal)
    (w : World) :
    (createTask p remote taskData w).2.state.profile = w.state.profile ∧
    ∀ r ∈ issued (createTask p remote taskData w).2.net, r ∈ issued w.net ∨ r.url = "/tasks" := by
  cases ht : p.userId.truthy with
  | false =>
    have e : createTask p remote taskData w =
        (.error (JsError.ofMessage "Not authenticated"), w) := by simp [createTask, ht]
    rw [e]
    exact ⟨rfl, fun r h => Or.inl h⟩
  | true =>
    cases hr : remote (issued w.net) (apiRequest p .post "/tasks" taskData) with
    | fail e =>
      rw [createTask_rejected p remote taskData w e ht hr]
      refine ⟨rfl, fun r h => ?_⟩
      have h2 : r ∈ issued (send remote (apiRequest p .post "/tasks" taskData) w).2.net := by
        rw [send_snd, hr]; exact h
      rcases mem_issued_send remote _ r w h2 with h3 | h3
      · exact Or.inl h3
      · exact Or.inr (h3 ▸ rfl)
    | ok data =>
      rw [createTask_posted p remote taskData w data ht hr]
      have hf := fetchTasks_leaves_profile p remote
        (send remote (apiRequest p .post "/tasks" taskData) w).2
      refine ⟨hf.1, fun r h => ?_⟩
      rcases hf.2 r h with h | h
      · rcases mem_issued_send remote _ r w h with h3 | h3
        · exact Or.inl h3
        · exact Or.inr (h3 ▸ rfl)
      · exact Or.inr h

/-- C23 (amended): `fetchTasks` and `createTask` leave the profile cache as it
was and issue no request to `/profile` (all their requests go to `/tasks`);
`completeTask` and `deleteTask`, after a mutation request that succeeded with a
body that is not `null` or `undefined`, always issue `GET /profile`, and the
profile cache then is the body of that response if it succeeded and the cache
from before the call if it failed. -/
theorem profile_cache_writers (p : TasksProps) (remote : Remote) (w : World) :
    ((fetchTasks p remote w).2.state.profile = w.state.profile ∧
      ∀ r ∈ issued (fetchTasks p remote w).2.net, r ∈ issued w.net ∨ r.url = "/tasks") ∧
    (∀ taskData, (createTask p remote taskData w).2.state.profile = w.state.profile ∧
      ∀ r ∈ issued (createTask p remote taskData w).2.net,
        r ∈ issued w.net ∨ r.url = "/tasks") ∧
    (p.userId.truthy = true → ∀ taskId data,
      remote (issued w.net) (completeRequest p taskId) = .ok data → data.isNullish = false →
      profileRequest p ∈ issued (completeTask p remote taskId w).2.net ∧
      (∀ body, remote (issued w.net ++ [completeRequest p taskId, tasksRequest p])
          (profileRequest p) = .ok body →
        (completeTask p remote taskId w).2.state.profile = body) ∧
      (∀ e, remote (issued w.net ++ [completeRequest p taskId, tasksRequest p])
          (profileRequest p) = .fail e →
        (completeTask p remote taskId w).2.state.profile = w.state.profile)) ∧
    (p.userId.truthy = true → ∀ taskId data,
      remote (issued w.net) (deleteRequest p taskId) = .ok data → data.isNullish = false →
      profileRequest p ∈ issued (deleteTask p remote taskId w).2.net ∧
      (∀ body, remote (issued w.net ++ [deleteRequest p taskId, tasksRequest p])
          (profileRequest p) = .ok body →
        (deleteTask p remote taskId w).2.state.profile = body) ∧
      (∀ e, remote (issued w.net ++ [deleteRequest p taskId, tasksRequest p])
          (profileRequest p) = .fail e →
        (deleteTask p remote taskId w).2.state.profile = w.state.profile)) := by
  refine ⟨fetchTasks_leaves_profile p remote w,
    fun taskData => createTask_leaves_profile p remote taskData w,
    fun h taskId data hr hd => ?_, fun h taskId data hr hd => ?_⟩
  · rw [completeTask_done p remote taskId w data h hr hd]
    have hn := net_after_refreshes p remote (completeRequest p taskId) w h
    have hc := caches_after_refreshes p remote (completeRequest p taskId) w h
    refine ⟨?_, hc.2.2.1, hc.2.2.2⟩
    rw [hn, issued_append]
    simp [issued]
  · rw [deleteTask_done p remote taskId w data h hr hd]
    have hn := net_after_refreshes p remote (deleteRequest p taskId) w h
    have hc := caches_after_refreshes p remote (deleteRequest p taskId) w h
    refine ⟨?_, hc.2.2.1, hc.2.2.2⟩
    rw [hn, issued_append]
    simp [issued]

/-- Witness for C23: after a completion against a healthy service the profile
cache is the body of the `GET /profile` that followed. -/
theorem profile_cache_writers_witness :
    profileRequest propsUser42 ∈ issued (completeTask propsUser42 remoteHealthy "t1" worldLoaded).2.net ∧
    (completeTask propsUser42 remoteHealthy "t1" worldLoaded).2.state.profile
      = .obj [("level", .num (.int 3)), ("totalXP", .num (.int 160))] :=
  have h := (profile_cache_writers propsUser42 remoteHealthy worldLoaded).2.2.1 rfl "t1"
    (.obj [("gamification", .obj [("xp_earned", .num (.int 10))])]) rfl rfl
  ⟨h.1, h.2.1 _ rfl⟩

/-- C23 as stated fails: a `DELETE` that succeeds with the body `null` is followed
by no request at all, so no profile refresh is attempted and the profile cache
stays as it was. -/
theorem profile_refresh_skipped_counterexample :
    remoteNullBody (issued worldLoaded.net) (deleteRequest propsUser42 "t1") = .ok .null ∧
    (deleteTask propsUser42 remoteNullBody "t1" worldLoaded).2.net
      = [.started (deleteRequest propsUser42 "t1"),
         .settled (deleteRequest propsUser42 "t1") (.ok .null)] ∧
    (deleteTask propsUser42 remoteNullBody "t1" worldLoaded).2.state.profile
      = worldLoaded.state.profile :=
  ⟨rfl, rfl, rfl⟩

/-! ## Claims on `categorizeTask` -/

/-- C28: for an integer timestamp `z` (seconds) and the clock value `nowMs`
(milliseconds), `categorizeTask` is decided by the difference `d` of the two
alone, here in milliseconds: today when `d` is below one day (overdue tasks
included), tomorrow from one day and below two, week from two days and below
seven, later from seven days on; hence the bucket never goes down when the
timestamp goes up. -/
theorem categorizeTask_by_difference (nowMs : Int) (id text status : JsVal) :
    (∀ z : Int, z * 1000 - nowMs < 86400000 →
      categorizeTask nowMs { id := id, text := text, status := status,
                             remindAt := .num (.int z) } = .today) ∧
    (∀ z : Int, 86400000 ≤ z * 1000 - nowMs → z * 1000 - nowMs < 172800000 →
      categorizeTask nowMs { id := id, text := text, status := status,
                             remindAt := .num (.int z) } = .tomorrow) ∧
    (∀ z : Int, 172800000 ≤ z * 1000 - nowMs → z * 1000 - nowMs < 604800000 →
      categorizeTask nowMs { id := id, text := text, status := status,
                             remindAt := .num (.int z) } = .week) ∧
    (∀ z : Int, 604800000 ≤ z * 1000 - nowMs →
      categorizeTask nowMs { id := id, text := text, status := status,
                             remindAt := .num (.int z) } = .later) ∧
    (∀ z1 z2 : Int, z1 ≤ z2 →
      (categorizeTask nowMs { id := id, text := text, status := status,
                              remindAt := .num (.int z1) }).rank ≤
      (categorizeTask nowMs { id := id, text := text, status := status,
                              remindAt := .num (.int z2) }).rank) := by
  have key : ∀ z : Int,
      categorizeTask nowMs { id := id, text := text, status := status,
                             remindAt := .num (.int z) } =
        if z * 1000 - nowMs < 86400000 then .today
        else if z * 1000 - nowMs < 172800000 then .tomorrow
        else if z * 1000 - nowMs < 604800000 then .week
        else .later := by
    intro z
    simp only [categorizeTask, taskTimestamp, diffLessThan, decide_eq_true_eq]
    split_ifs <;> first | rfl | omega
  refine ⟨fun z h => ?_, fun z h1 h2 => ?_, fun z h1 h2 => ?_, fun z h => ?_, fun z1 z2 h => ?_⟩
  · rw [key]; simp [h]
  · rw [key]; split_ifs <;> first | rfl | omega
  · rw [key]; split_ifs <;> first | rfl | omega
  · rw [key]; split_ifs <;> first | rfl | omega
  · rw [key, key]
    split_ifs <;> simp [Bucket.rank] <;> omega

/-- Witness for C28: a task due 100000 seconds after the clock value is under
tomorrow. -/
theorem categorizeTask_by_difference_witness :
    categorizeTask 1700000000000
      { id := .str "c", text := .str "Walk dog", status := .null,
        remindAt := .num (.int 1700100000) } = .tomorrow :=
  (categorizeTask_by_difference 1700000000000 (.str "c") (.str "Walk dog") .null).2.1
    1700100000 (by decide) (by decide)

/-! ## Claims on the create dialog -/

theorem handleSmartParse_guarded (m : StringMethods) (reply : ParseReply) (f : DialogForm)
    (s : String) (hs : f.text = .str s) (ht : jsTrim s ≠ "") (hl : 5 ≤ utf16Length s) :
    handleSmartParse m reply f =
      (.ok .undefined,
       { (match reply with
          | .requestFailed _ => { f with loading := true }
          | .invalidBody _ => { f with loading := true }
          | .parsed data => (applyParsed m data { f with loading := true }).2)
         with loading := false }) := by
  have hl2 : ¬ utf16Length s < 5 := by omega
  simp [handleSmartParse, trimOf, hs, ht, hl2]

theorem applyDueDate_frame (m : StringMethods) (data : JsVal) (f : DialogForm) :
    (applyDueDate m data f).2.text = f.text ∧ (applyDueDate m data f).2.priority = f.priority ∧
    (applyDueDate m data f).2.tags = f.tags ∧
    (∀ e, (applyDueDate m data f).1 = .error e → (applyDueDate m data f).2 = f) := by
  unfold applyDueDate
  split
  · exact ⟨rfl, rfl, rfl, fun _ _ => rfl⟩
  · split
    · exact ⟨rfl, rfl, rfl, fun e h => by simp at h⟩
    · exact ⟨rfl, rfl, rfl, fun e h => by simp at h⟩
    · exact ⟨rfl, rfl, rfl, fun _ _ => rfl⟩

theorem applyPriority_error_dateTime (m : StringMethods) (data : JsVal) (g : DialogForm)
    (e : JsError) (he : (applyPriority m data g).1 = .error e) :
    (applyPriority m data g).2.dateTime = g.dateTime := by
  unfold applyPriority at he ⊢
  by_cases hc : (!(data.getField "priority").truthy) = true
  · rw [if_pos hc] at he ⊢
    rw [(applyDueDate_frame m data g).2.2.2 e he]
  · rw [if_neg hc] at he ⊢
    cases hpv : data.getField "priority" with
    | str p =>
      rw [hpv] at he
      simp only at he ⊢
      rw [(applyDueDate_frame m data _).2.2.2 e he]
    | undefined => rfl
    | null => rfl
    | bool b => rfl
    | num n => rfl
    | arr xs => rfl
    | obj fields => rfl

theorem applyParsed_error_dateTime (m : StringMethods) (data : JsVal) (g : DialogForm)
    (e : JsError) (he : (applyParsed m data g).1 = .error e) :
    (applyParsed m data g).2.dateTime = g.dateTime := by
  unfold applyParsed at he ⊢
  cases hg : data.get "text" with
  | error e2 => rfl
  | ok text =>
    rw [hg] at he
    simp only at he ⊢
    rw [applyPriority_error_dateTime m data _ e he]
    split <;> rfl

theorem applyDueDate_fails (m : StringMethods) (data : JsVal) (g : DialogForm)
    (hd : (data.getField "due_date").truthy = true)
    (hns : ∀ d, data.getField "due_date" ≠ .str d)
    (hna : ∀ xs, data.getField "due_date" ≠ .arr xs) :
    applyDueDate m data g = (.error (notAFunction "data.due_date.slice"), g) := by
  unfold applyDueDate
  rw [if_neg (by simp [hd])]
  split
  · rename_i d h
    exact absurd h (hns d)
  · rename_i xs h
    exact absurd h (hna xs)
  · rfl

theorem applyPriority_fails (m : StringMethods) (data : JsVal) (g : DialogForm)
    (hp : (data.getField "priority").truthy = true)
    (hns : ∀ p, data.getField "priority" ≠ .str p) :
    applyPriority m data g = (.error (notAFunction "data.priority.toLowerCase"), g) := by
  unfold applyPriority
  rw [if_neg (by simp [hp])]
  split
  · rename_i p hp2
    exact absurd hp2 (hns p)
  · rfl

theorem applyPriority_tags (m : StringMethods) (data : JsVal) (g : DialogForm) :
    (applyPriority m data g).2.tags = g.tags := by
  unfold applyPriority
  split
  · exact (applyDueDate_frame m data g).2.2.1
  · split
    · exact (applyDueDate_frame m data _).2.2.1
    · rfl

theorem applyParsed_tags (m : StringMethods) (data : JsVal) (g : DialogForm) :
    (applyParsed m data g).2.tags = g.tags := by
  unfold applyParsed
  split
  · rfl
  · rw [applyPriority_tags]
    split <;> rfl

/-- C24 (amended): with a text that passes the guard, whatever the AI parse step
does `handleSmartParse` resolves and `loading` ends false, and the tags are as
before. When the request fails, the body is not valid JSON or the body is `null`
or `undefined`, the fields text, priority and dateTime are as before the call.
When applying `priority` fails (it is truthy and not a string), text is the
returned text if that is truthy (else as before) and priority and dateTime are as
before. When applying `due_date` fails (it is truthy and neither a string nor an
array), text is the returned text if that is truthy (else as before), priority
is the lower-cased returned priority if that is a non-empty string (as before if
the returned priority is falsy), and dateTime is as before. In every case in
which applying a field throws, dateTime is as before. -/
theorem smart_parse_failures (m : StringMethods) (f : DialogForm) (s : String)
    (hs : f.text = .str s) (ht : jsTrim s ≠ "") (hl : 5 ≤ utf16Length s) :
    (∀ reply, (handleSmartParse m reply f).1 = .ok .undefined ∧
      (handleSmartParse m reply f).2.loading = false) ∧
    (∀ e, handleSmartParse m (.requestFailed e) f = (.ok .undefined, { f with loading := false })) ∧
    (∀ e, handleSmartParse m (.invalidBody e) f = (.ok .undefined, { f with loading := false })) ∧
    (∀ data, data.isNullish = true →
      handleSmartParse m (.parsed data) f = (.ok .undefined, { f with loading := false })) ∧
    (∀ data, data.isNullish = false → (data.getField "priority").truthy = true →
      (∀ p, data.getField "priority" ≠ .str p) →
      (handleSmartParse m (.parsed data) f).2 =
        { f with text := if (data.getField "text").truthy then data.getField "text" else f.text,
                 loading := false }) ∧
    (∀ data e, (applyParsed m data { f with loading := true }).1 = .error e →
      (handleSmartParse m (.parsed data) f).2.dateTime = f.dateTime) ∧
    (∀ reply, (handleSmartParse m reply f).2.tags = f.tags) ∧
    (∀ data, data.isNullish = false → (data.getField "priority").truthy = true →
      (∀ p, data.getField "priority" ≠ .str p) →
      (applyParsed m data { f with loading := true }).1
        = .error (notAFunction "data.priority.toLowerCase")) ∧
    (∀ data, data.isNullish = false → (data.getField "priority").truthy = false →
      (data.getField "due_date").truthy = true →
      (∀ d, data.getField "due_date" ≠ .str d) → (∀ xs, data.getField "due_date" ≠ .arr xs) →
      (applyParsed m data { f with loading := true }).1
        = .error (notAFunction "data.due_date.slice") ∧
      (handleSmartParse m (.parsed data) f).2 =
        { f with text := if (data.getField "text").truthy then data.getField "text" else f.text,
                 loading := false }) ∧
    (∀ data p, data.isNullish = false → data.getField "priority" = .str p →
      (data.getField "priority").truthy = true →
      (data.getField "due_date").truthy = true →
      (∀ d, data.getField "due_date" ≠ .str d) → (∀ xs, data.getField "due_date" ≠ .arr xs) →
      (applyParsed m data { f with loading := true }).1
        = .error (notAFunction "data.due_date.slice") ∧
      (handleSmartParse m (.parsed data) f).2 =
        { f with text := if (data.getField "text").truthy then data.getField "text" else f.text,
                 priority := .str (m.toLowerCase p),
                 loading := false }) := by
  refine ⟨fun reply => ?_, fun e => ?_, fun e => ?_, fun data hd => ?_, fun data hd hp hns => ?_,
    fun data e he => ?_, fun reply => ?_, fun data hd hp hns => ?_,
    fun data hd hp hdd hds hda => ?_, fun data p hd hpv hp hdd hds hda => ?_⟩
  · rw [handleSmartParse_guarded m reply f s hs ht hl]
    exact ⟨rfl, rfl⟩
  · rw [handleSmartParse_guarded m _ f s hs ht hl]
  · rw [handleSmartParse_guarded m _ f s hs ht hl]
  · rw [handleSmartParse_guarded m _ f s hs ht hl]
    simp [applyParsed, JsVal.get, hd]
  · rw [handleSmartParse_guarded m _ f s hs ht hl]
    have hg : data.get "text" = .ok (data.getField "text") := by simp [JsVal.get, hd]
    simp only [applyParsed, hg, applyPriority_fails m data _ hp hns]
    split <;> rfl
  · rw [handleSmartParse_guarded m _ f s hs ht hl]
    exact applyParsed_error_dateTime m data _ e he
  · rw [handleSmartParse_guarded m _ f s hs ht hl]
    cases reply with
    | requestFailed e => rfl
    | invalidBody e => rfl
    | parsed data => exact applyParsed_tags m data _
  · have hg : data.get "text" = .ok (data.getField "text") := by simp [JsVal.get, hd]
    simp only [applyParsed, hg, applyPriority_fails m data _ hp hns]
  · have hg : data.get "text" = .ok (data.getField "text") := by simp [JsVal.get, hd]
    have hpr : ∀ g : DialogForm, applyPriority m data g
        = (.error (notAFunction "data.due_date.slice"), g) := by
      intro g
      unfold applyPriority
      rw [if_pos (by simp [hp])]
      exact applyDueDate_fails m data g hdd hds hda
    rw [handleSmartParse_guarded m _ f s hs ht hl]
    simp only [applyParsed, hg, hpr]
    refine ⟨trivial, ?_⟩
    split <;> rfl
  · have hg : data.get "text" = .ok (data.getField "text") := by simp [JsVal.get, hd]
    have hpr : ∀ g : DialogForm, applyPriority m data g
        = (.error (notAFunction "data.due_date.slice"),
           { g with priority := .str (m.toLowerCase p) }) := by
      intro g
      unfold applyPriority
      rw [if_neg (by simp [hp])]
      rw [hpv]
      exact applyDueDate_fails m data _ hdd hds hda
    rw [handleSmartParse_guarded m _ f s hs ht hl]
    simp only [applyParsed, hg, hpr]
    refine ⟨trivial, ?_⟩
    split <;> rfl

/-- Witness for C24: a failed request leaves the form as it was, with `loading`
false; and for the parse result `{text: 'Buy milk', priority: 'LOW', due_date: 5}`
applying `due_date` throws and the form ends with the new text 'Buy milk', the
new priority 'low' and the date chosen before. -/
theorem smart_parse_failures_witness :
    handleSmartParse asciiMethods (.requestFailed networkError) formFilled =
      (.ok .undefined, { formFilled with loading := false }) ∧
    ((applyParsed asciiMethods parsedWithBadDueDate { formFilled with loading := true }).1
        = .error (notAFunction "data.due_date.slice") ∧
      (handleSmartParse asciiMethods (.parsed parsedWithBadDueDate) formFilled).2 =
        { text := .str "Buy milk", priority := .str "low", tags := ["home"], tagInput := "",
          dateTime := .str "2026-11-05T10:00", loading := false }) :=
  ⟨(smart_parse_failures asciiMethods formFilled "  milk tomorrow " rfl (by decide)
      (by decide)).2.1 networkError,
   (smart_parse_failures asciiMethods formFilled "  milk tomorrow " rfl (by decide)
      (by decide)).2.2.2.2.2.2.2.2.2 parsedWithBadDueDate "LOW" rfl rfl rfl rfl
      (fun d h => JsVal.noConfusion (show JsVal.num (.int 5) = .str d from h))
      (fun xs h => JsVal.noConfusion (show JsVal.num (.int 5) = .arr xs from h))⟩

/-- C24 as stated fails: for the parse result `{text: 'Buy milk', priority: 5}`
applying `priority` throws, after `text` has been set; the text of the form is
then 'Buy milk' and no longer what the user typed. -/
theorem smart_parse_partial_counterexample :
    (applyParsed asciiMethods parsedWithBadPriority { formFilled with loading := true }).1
      = .error (notAFunction "data.priority.toLowerCase") ∧
    formFilled.text = .str "  milk tomorrow " ∧
    (handleSmartParse asciiMethods (.parsed parsedWithBadPriority) formFilled).2.text
      = .str "Buy milk" ∧
    (handleSmartParse asciiMethods (.parsed parsedWithBadPriority) formFilled).1
      = .ok .undefined :=
  ⟨rfl, rfl, rfl, rfl⟩

theorem jsTrim_data (s : String) :
    (jsTrim s).data =
      ((s.data.dropWhile isStrWhiteSpaceChar).reverse.dropWhile isStrWhiteSpaceChar).reverse :=
  rfl

/-- The result of `trim` neither starts nor ends with white space. -/
theorem jsTrim_ends (s : String) :
    (∀ c, (jsTrim s).data.head? = some c → isStrWhiteSpaceChar c = false) ∧
    (∀ c, (jsTrim s).data.getLast? = some c → isStrWhiteSpaceChar c = false) := by
  rw [jsTrim_data]
  constructor
  · intro c hc
    have hpre : ((s.data.dropWhile isStrWhiteSpaceChar).reverse.dropWhile
        isStrWhiteSpaceChar).reverse <+: s.data.dropWhile isStrWhiteSpaceChar := by
      have h := List.dropWhile_suffix (l := (s.data.dropWhile isStrWhiteSpaceChar).reverse)
        isStrWhiteSpaceChar
      have h2 := List.reverse_prefix.2 h
      simpa using h2
    obtain ⟨t, ht⟩ := hpre
    have hh : (s.data.dropWhile isStrWhiteSpaceChar).head? = some c := by
      rw [← ht]
      cases hb : ((s.data.dropWhile isStrWhiteSpaceChar).reverse.dropWhile
          isStrWhiteSpaceChar).reverse with
      | nil => rw [hb] at hc; simp at hc
      | cons x xs => rw [hb] at hc; simpa using hc
    have := List.head?_dropWhile_not isStrWhiteSpaceChar s.data
    rw [hh] at this
    exact this
  · intro c hc
    rw [List.getLast?_reverse] at hc
    have := List.head?_dropWhile_not isStrWhiteSpaceChar
      (s.data.dropWhile isStrWhiteSpaceChar).reverse
    rw [hc] at this
    exact this

/-- The run of `handleCreate` on a form whose text is the string `s`. -/
theorem handleCreate_on_string (timeValue : JsVal → JsNum) (onCreate : JsVal → Outcome)
    (f : DialogForm) (s : String) (hs : f.text = .str s) :
    (jsTrim s = "" ∨ f.dateTime.truthy = false →
      (handleCreate timeValue onCreate f).calls = [] ∧
      (handleCreate timeValue onCreate f).form = f ∧
      (handleCreate timeValue onCreate f).outcome = .ok .undefined) ∧
    (jsTrim s ≠ "" → f.dateTime.truthy = true →
      (handleCreate timeValue onCreate f).calls =
        [.obj [("text", .str (jsTrim s)), ("priority", f.priority),
               ("tags", .arr (f.tags.map JsVal.str)),
               ("remindAt", .num (floorSeconds (timeValue f.dateTime)))]]) ∧
    (∀ z : Int, timeValue f.dateTime = .int z →
      floorSeconds (timeValue f.dateTime) = .int (z / 1000) ∧
      (z / 1000) * 1000 ≤ z ∧ z < (z / 1000 + 1) * 1000) ∧
    (∀ c, (jsTrim s).data.head? = some c → isStrWhiteSpaceChar c = false) ∧
    (∀ c, (jsTrim s).data.getLast? = some c → isStrWhiteSpaceChar c = false) := by
  refine ⟨fun h => ?_, fun h1 h2 => ?_, fun z hz => ?_, (jsTrim_ends s).1, (jsTrim_ends s).2⟩
  · have : jsTrim s = "" ∨ f.dateTime.truthy = false := h
    simp [handleCreate, trimOf, hs, this]
  · simp only [handleCreate, trimOf, hs]
    rw [if_neg (by simp [h1, h2])]
    cases onCreate _ <;> rfl
  · rw [hz]
    refine ⟨?_, ?_, ?_⟩
    · simp [floorSeconds, Int.fdiv_eq_ediv]
    · omega
    · omega

/-- A form whose text is not a string makes `handleCreate` throw at `text.trim()`,
before any call or state change. -/
theorem handleCreate_not_a_string (timeValue : JsVal → JsNum) (onCreate : JsVal → Outcome)
    (f : DialogForm) (h : ∀ s, f.text ≠ .str s) :
    (handleCreate timeValue onCreate f).calls = [] ∧
    (handleCreate timeValue onCreate f).form = f := by
  unfold handleCreate trimOf
  cases ht : f.text with
  | str s => exact absurd ht (h s)
  | undefined => exact ⟨rfl, rfl⟩
  | null => exact ⟨rfl, rfl⟩
  | bool b => exact ⟨rfl, rfl⟩
  | num n => exact ⟨rfl, rfl⟩
  | arr xs => exact ⟨rfl, rfl⟩
  | obj fields => exact ⟨rfl, rfl⟩

/-- C26: for every form, `handleCreate` calls `onCreate` only when the trimmed
text is non-empty and `dateTime` is set, and then once, with the draft made of
the trimmed text (which has no white space at either end), the selected
priority, the current tags and `remindAt` equal to the floor of the time value
of `dateTime` in milliseconds divided by 1000; otherwise (also when the text is
not a string and `trim` throws) it makes no call and leaves the form as it is. -/
theorem handleCreate_draft (timeValue : JsVal → JsNum) (onCreate : JsVal → Outcome)
    (f : DialogForm) :
    (∀ s, f.text = .str s → jsTrim s ≠ "" → f.dateTime.truthy = true →
      (handleCreate timeValue onCreate f).calls =
        [.obj [("text", .str (jsTrim s)), ("priority", f.priority),
               ("tags", .arr (f.tags.map JsVal.str)),
               ("remindAt", .num (floorSeconds (timeValue f.dateTime)))]] ∧
      (∀ c, (jsTrim s).data.head? = some c → isStrWhiteSpaceChar c = false) ∧
      (∀ c, (jsTrim s).data.getLast? = some c → isStrWhiteSpaceChar c = false)) ∧
    (∀ z : Int, timeValue f.dateTime = .int z →
      floorSeconds (timeValue f.dateTime) = .int (z / 1000) ∧
      (z / 1000) * 1000 ≤ z ∧ z < (z / 1000 + 1) * 1000) ∧
    (∀ s, f.text = .str s → jsTrim s = "" ∨ f.dateTime.truthy = false →
      (handleCreate timeValue onCreate f).calls = [] ∧
      (handleCreate timeValue onCreate f).form = f ∧
      (handleCreate timeValue onCreate f).outcome = .ok .undefined) ∧
    ((∀ s, f.text ≠ .str s) →
      (handleCreate timeValue onCreate f).calls = [] ∧
      (handleCreate timeValue onCreate f).form = f) := by
  refine ⟨fun s hs h1 h2 => ?_, fun z hz => ?_, fun s hs h => ?_,
    handleCreate_not_a_string timeValue onCreate f⟩
  · have h := handleCreate_on_string timeValue onCreate f s hs
    exact ⟨h.2.1 h1 h2, h.2.2.2.1, h.2.2.2.2⟩
  · rw [hz]
    refine ⟨by simp [floorSeconds, Int.fdiv_eq_ediv], ?_, ?_⟩ <;> omega
  · exact (handleCreate_on_string timeValue onCreate f s hs).1 h

/-- Witness for C26: the draft built from the filled form. -/
theorem handleCreate_draft_witness :
    (handleCreate sampleTimeValue (fun _ => .ok .undefined) formFilled).calls =
      [.obj [("text", .str "milk tomorrow"), ("priority", .str "high"),
             ("tags", .arr [.str "home"]), ("remindAt", .num (.int 1793872800))]] :=
  ((handleCreate_draft sampleTimeValue (fun _ => .ok .undefined) formFilled).1
    "  milk tomorrow " rfl (by decide) rfl).1

/-- The function `handleCreateTask` of `App` never rejects. -/
theorem handleCreateTask_resolves (p : TasksProps) (remote : Remote) (taskData : JsVal)
    (app : AppShell) (w : World) :
    (handleCreateTask p remote taskData app w).1 = .ok .undefined := by
  unfold handleCreateTask
  split <;> rfl

/-- C29 fails on the code: with `handleCreateTask` of `App` as `onCreate`, a form
that passes the guard is reset to its defaults whether `createTask` resolves or
rejects, because `handleCreateTask` catches the rejection and resolves. -/
theorem create_failure_resets_form (timeValue : JsVal → JsNum) (p : TasksProps)
    (remote : Remote) (app : AppShell) (w : World) (f : DialogForm) (s : String)
    (hs : f.text = .str s) (ht : jsTrim s ≠ "") (hd : f.dateTime.truthy = true) :
    (handleCreate timeValue (fun d => (handleCreateTask p remote d app w).1) f).form =
      { f with text := .str "", priority := .str "medium", tags := [], dateTime := .str "",
               loading := false } ∧
    (handleCreate timeValue (fun d => (handleCreateTask p remote d app w).1) f).outcome
      = .ok .undefined := by
  simp only [handleCreate, trimOf, hs]
  rw [if_neg (by simp [ht, hd])]
  simp only [handleCreateTask_resolves]
  constructor <;> first | rfl | trivial

/-- Witness for the failure of C29: the service is down, `createTask` rejects
with the network error, the create dialog stays open with an error
notification, and the form has lost what the user entered. -/
theorem create_failure_resets_form_witness :
    (createTask propsUser42 remoteDown
      (.obj [("text", .str "milk tomorrow"), ("priority", .str "high"),
             ("tags", .arr [.str "home"]), ("remindAt", .num (.int 1793872800))])
      worldLoaded).1 = .error networkError ∧
    (handleCreateTask propsUser42 remoteDown
      (.obj [("text", .str "milk tomorrow"), ("priority", .str "high"),
             ("tags", .arr [.str "home"]), ("remindAt", .num (.int 1793872800))])
      appDialogOpen worldLoaded).2.1.createDialogOpen = true ∧
    (handleCreate sampleTimeValue
      (fun d => (handleCreateTask propsUser42 remoteDown d appDialogOpen worldLoaded).1)
      formFilled).form = DialogForm.initial :=
  ⟨rfl, rfl,
   (create_failure_resets_form sampleTimeValue propsUser42 remoteDown appDialogOpen worldLoaded
     formFilled "  milk tomorrow " rfl (by decide) rfl).1⟩

/-! ## Claims on the heatmap and the calendar -/

theorem monthOfDayInYear_lt (leap : Bool) (d : Int) : monthOfDayInYear leap d < 12 := by
  unfold monthOfDayInYear
  have h := List.length_filter_le (fun m => decide (monthStart leap m ≤ d)) (List.range 12)
  simp only [List.length_range] at h
  omega

theorem monthFromDay_lt (n : Int) : monthFromDay n < 12 :=
  monthOfDayInYear_lt _ _

/-- Moving the date of a day by `-i` with `MakeDay` gives the day `i` days before. -/
theorem makeDay_of_day (n i : Int) :
    makeDay (yearFromDay n) (monthFromDay n) (dateFromDay n - i) = n - i := by
  have hm := monthFromDay_lt n
  have h1 : ((monthFromDay n : Nat) : Int) / 12 = 0 := by omega
  have h2 : (((monthFromDay n : Nat) : Int) % 12).toNat = monthFromDay n := by omega
  unfold makeDay dateFromDay
  rw [h1, h2]
  simp only [add_zero]
  omega

theorem dayOf_makeDate (d : Int) : dayOf (makeDate d 0) = d := by
  unfold dayOf makeDate msPerDay
  omega

theorem dayOf_sub_days (t i : Int) : dayOf (t - i * msPerDay) = dayOf t - i := by
  unfold dayOf msPerDay
  omega

theorem setDate_fixed (c t i : Int) :
    setDate (TimeZone.fixed c) t (getDate (TimeZone.fixed c) t - i) = t - i * msPerDay := by
  unfold setDate getDate getFullYear getMonth
  rw [makeDay_of_day]
  unfold utcTime makeDate localTime TimeZone.fixed timeWithinDay dayOf msPerDay
  simp only
  omega

/-- In a zone with one offset all year the heatmap has one entry for each of the
60 days that end with the UTC day of `today`: entry `i` (counted back from the
last) is the instant `i` days before `today`, whose UTC day number is `i` less. -/
theorem heatmap_fixed_zone (c today : Int) (activityLog : JsVal) :
    activityHeatmap (TimeZone.fixed c) today activityLog =
      ((List.range 60).reverse).map (fun i =>
        { date := isoDate (today - (i : Int) * msPerDay)
          count := (activityLog.optGet (isoDate (today - (i : Int) * msPerDay))).orElse
            (.num (.int 0))
          dayOfWeek := weekDay (dayOf (today - (i : Int) * msPerDay + c)) }) ∧
    (∀ i : Int, dayOf (today - i * msPerDay) = dayOf today - i) := by
  refine ⟨?_, fun i => dayOf_sub_days today i⟩
  unfold activityHeatmap
  apply List.map_congr_left
  intro i _
  simp only [heatDay, setDate_fixed]
  rfl

/-- C25 fails on the code: in a zone with summer time, on 10 April 2026 at 01:30
local time (9 April 23:30 UTC), the 60 entries hold 29 March twice in a row and
end with 9 April, not with the local date 10 April. -/
theorem heatmap_summer_time_duplicate :
    (activityHeatmap zoneWithSummerTime aprilNight .null).length = 60 ∧
    ((activityHeatmap zoneWithSummerTime aprilNight .null).map (fun d => d.date)).get? 47
      = some "2026-03-29" ∧
    ((activityHeatmap zoneWithSummerTime aprilNight .null).map (fun d => d.date)).get? 48
      = some "2026-03-29" ∧
    ((activityHeatmap zoneWithSummerTime aprilNight .null).map (fun d => d.date)).get? 59
      = some "2026-04-09" ∧
    isoDate (localTime zoneWithSummerTime aprilNight) = "2026-04-10" := by
  decide

/-- C27 fails on the code: in November 2026 with one task due in November 2023,
no day of the grid has a task, and the summary line counts one task. -/
theorem calendar_summary_counts_all :
    isoDate novemberNoon = "2026-11-04" ∧
    tasksOfAnotherYear.map (fun t => (timeValueOfSeconds (taskTimestamp t)).map isoDate)
      = [some "2023-11-14"] ∧
    tasksOnGrid (TimeZone.fixed 0) novemberNoon tasksOfAnotherYear = 0 ∧
    calendarSummaryCount tasksOfAnotherYear = 1 := by
  decide

theorem yearSearch_ge (fuel : Nat) (n : Int) : ∀ y, y ≤ yearSearch fuel n y := by
  induction fuel with
  | zero => intro y; exact le_refl y
  | succ fuel ih =>
    intro y
    simp only [yearSearch]
    split
    · have := ih (y + 1)
      omega
    · exact le_refl y

theorem yearFromDay_ge (n : Int) (h : 0 ≤ n) : 1970 ≤ yearFromDay n := by
  unfold yearFromDay
  have h1 := yearSearch_ge (n.natAbs / 100000 + 3) n (1970 + min (n / 365) (n / 366))
  have h2 : 0 ≤ n / 365 := Int.ediv_nonneg h (by decide)
  have h3 : 0 ≤ n / 366 := Int.ediv_nonneg h (by decide)
  have h4 : 0 ≤ min (n / 365) (n / 366) := le_min h2 h3
  omega

/-- C30: for every current date from 1970 on, in a zone where local midnight of
a day falls on that day, the grid has `firstDay + daysInMonth` cells; `firstDay`
is between 0 and 6 and is the weekday of the 1st of the month; the first
`firstDay` cells are empty and cell `firstDay + k - 1` holds the day number `k`,
for `k` from 1 to `daysInMonth`; and the weekday of day `k` of the month is its
column `(firstDay + k - 1) mod 7`. -/
theorem calendar_grid_shape (tz : TimeZone) (currentDate : Int)
    (h0 : 0 ≤ localTime tz currentDate)
    (hz : ∀ d : Int, dayOf (localTime tz (utcTime tz (makeDate d 0))) = d) :
    (calendarDays tz currentDate).length =
      (getDaysInMonth tz currentDate).firstDay.toNat +
        (getDaysInMonth tz currentDate).daysInMonth.toNat ∧
    (0 ≤ (getDaysInMonth tz currentDate).firstDay ∧
      (getDaysInMonth tz currentDate).firstDay ≤ 6) ∧
    (getDaysInMonth tz currentDate).firstDay =
      weekDay (makeDay (getFullYear tz currentDate) (getMonth tz currentDate) 1) ∧
    (∀ i : Nat, i < (getDaysInMonth tz currentDate).firstDay.toNat →
      (calendarDays tz currentDate).get? i = some none) ∧
    (∀ k : Nat, 1 ≤ k → k ≤ (getDaysInMonth tz currentDate).daysInMonth.toNat →
      (calendarDays tz currentDate).get?
        ((getDaysInMonth tz currentDate).firstDay.toNat + k - 1) = some (some k)) ∧
    (∀ k : Nat, 1 ≤ k →
      weekDay (makeDay (getFullYear tz currentDate) (getMonth tz currentDate) k) =
        ((getDaysInMonth tz currentDate).firstDay + k - 1) % 7) := by
  have hy : 1970 ≤ getFullYear tz currentDate := by
    unfold getFullYear
    apply yearFromDay_ge
    unfold dayOf msPerDay
    omega
  have hfirst : (getDaysInMonth tz currentDate).firstDay =
      weekDay (makeDay (getFullYear tz currentDate) (getMonth tz currentDate) 1) := by
    simp only [getDaysInMonth, getDay, dateFromFields]
    rw [if_neg (by omega), hz]
  have hrange : 0 ≤ (getDaysInMonth tz currentDate).firstDay ∧
      (getDaysInMonth tz currentDate).firstDay ≤ 6 := by
    rw [hfirst]
    unfold weekDay
    omega
  refine ⟨?_, hrange, hfirst, fun i hi => ?_, fun k hk1 hk2 => ?_, fun k hk => ?_⟩
  · simp [calendarDays]
  · unfold calendarDays
    rw [List.get?_eq_getElem?, List.getElem?_append_left (by simpa using hi)]
    simp [List.getElem?_replicate, hi]
  · unfold calendarDays
    rw [List.get?_eq_getElem?, List.getElem?_append_right (by simp; omega)]
    simp only [List.length_replicate]
    have hidx : (getDaysInMonth tz currentDate).firstDay.toNat + k - 1 -
        (getDaysInMonth tz currentDate).firstDay.toNat = k - 1 := by omega
    rw [hidx, List.getElem?_map, List.getElem?_range (by omega)]
    simp
    omega
  · rw [hfirst]
    unfold weekDay makeDay
    omega

/-- Witness for C30: November 2026 starts on a Sunday and has 30 days. -/
theorem calendar_grid_shape_witness :
    (calendarDays (TimeZone.fixed 0) novemberNoon).length = 0 + 30 ∧
    (getDaysInMonth (TimeZone.fixed 0) novemberNoon).firstDay = 0 := by
  have h := calendar_grid_shape (TimeZone.fixed 0) novemberNoon (by decide)
    (fun d => by
      simp only [localTime, utcTime, TimeZone.fixed, sub_zero, add_zero]
      exact dayOf_makeDate d)
  refine ⟨?_, by decide⟩
  rw [h.1]
  decide


end TaskBot
